import Mathlib

/-!
Verification of the Boost build-orchestration script (build.py).

The script is Python 2 code: a linear pipeline of shell invocations glued
together with path bookkeeping.  We model it shallowly:

* the filesystem is a map from path strings to optional file contents plus
  a set of directories (`FS`);
* the outside world (external commands, `os.listdir`) is an oracle
  (`World`): running a command yields an exit status, a new filesystem and
  captured output;
* each Python function becomes a value of the monad `M`, which threads the
  interpreter state (`St`: filesystem, current working directory, the
  `BuildEnv` directory stack) and records an `Effect` trace; `sys.exit`
  and uncaught Python exceptions abort the computation (`Abort`).

Path strings are used verbatim as filesystem keys (the script builds
absolute paths almost everywhere).  `os.chdir` is modelled as always
succeeding.  Per-line output streaming of `shell_pipe` is folded into the
single `Effect.run` event of the command.
-/

/-- Python `os.path.join` for two components, as CPython implements it for
POSIX paths: an absolute second component replaces the first, otherwise the
components are joined with exactly one slash. -/
def pyJoin (a b : String) : String :=
  if b.data.head? = some '/' then b
  else if a = "" then b
  else if a.data.getLast? = some '/' then a ++ b
  else a ++ "/" ++ b

/-- Boolean test that `p` is a prefix of `s` (on the underlying character
lists, so that kernel evaluation is structural). -/
def pStarts (p s : String) : Bool :=
  p.data.isPrefixOf s.data

/-- Boolean test that `p` is a suffix of `s`. -/
def pEnds (p s : String) : Bool :=
  p.data.isSuffixOf s.data

/-- Python `str.rstrip()`: drop trailing whitespace. -/
def pyRstrip (s : String) : String :=
  String.mk (s.data.reverse.dropWhile Char.isWhitespace).reverse

/-- Python `version.split('.')` on the character level. -/
def splitDotAux : List Char → List Char → List (List Char)
  | [], acc => [acc.reverse]
  | c :: rest, acc =>
    if c = '.' then acc.reverse :: splitDotAux rest []
    else splitDotAux rest (c :: acc)

/-- Python `'_'.join(version.split('.'))`, used by `BoostSource.__init__`
to derive `version_underscore` from the version string. -/
def pyDotToUnderscore (v : String) : String :=
  String.mk (List.intercalate ['_'] (splitDotAux v.data []))

/-- CPython 2.7 string hash (64-bit build, hash randomization off, which is
the default).  The value is the 64-bit two's-complement bit pattern of the
C `long` hash, represented as a natural number below `2 ^ 64`. -/
def pyStrHash64 (s : String) : Nat :=
  match s.data with
  | [] => 0
  | c :: _ =>
    let m64 : Nat := 2 ^ 64
    let x0 : Nat := (c.toNat <<< 7) % m64
    let x1 : Nat := s.data.foldl (fun x ch => ((1000003 * x) % m64) ^^^ ch.toNat) x0
    let x2 : Nat := x1 ^^^ s.data.length
    if x2 = m64 - 1 then m64 - 2 else x2

/-- Open-addressing probe of CPython 2.7's `lookdict` for a table of eight
slots: slot `i % 8` is tried, and on collision the recurrence
`i := i*5 + perturb + 1`, `perturb := perturb >>> 5` is followed.  Working
with unbounded naturals is sound because the slot only depends on `i`
modulo 8 and `2 ^ 64` is divisible by 8. -/
def probeSlot : Nat → List (Option String) → Nat → Nat → Nat
  | 0, _, i, _ => i % 8
  | fuel + 1, t, i, perturb =>
    if (t.getD (i % 8) none).isNone then i % 8
    else probeSlot fuel t (i * 5 + perturb + 1) (perturb >>> 5)

/-- Insert a (fresh) key into an eight-slot CPython 2.7 dict table. -/
def pyDictInsert8 (t : List (Option String)) (k : String) : List (Option String) :=
  let h := pyStrHash64 k
  t.set (probeSlot 64 t (h % 8) h) (some k)

/-- `dict.keys()` of a small CPython 2.7 dict literal (at most five keys,
so the table keeps its initial size of eight slots): keys listed in slot
order, which is hash order, not insertion order. -/
def pyDict8Keys (ks : List String) : List String :=
  (ks.foldl pyDictInsert8 (List.replicate 8 none)).filterMap id

/-- Model of the filesystem: file contents by path, directory existence by
path.  Paths are the literal strings the script constructs. -/
structure FS where
  files : String → Option String
  dirs : String → Bool

/-- Result of letting the outside world execute one external command:
exit status, the filesystem afterwards, and the captured standard output. -/
structure ExecR where
  status : Nat
  fsAfter : FS
  out : String

/-- The outside world: what external commands do (`subprocess`), and what
`os.listdir` answers. -/
structure World where
  exec : String → FS → ExecR
  listdir : String → FS → List String

/-- Interpreter state: filesystem, current working directory, and the
`BuildEnv.dir_stack` (most recently pushed directory first; the Python
list appends and pops at its right end, which is the same stack). -/
structure St where
  fs : FS
  cwd : String
  dirStack : List String

/-- How a run can abort: `sys.exit(code)`, or an uncaught Python
exception (which also terminates the process with a nonzero status). -/
inductive Abort where
  | exited (code : Nat)
  | pyError (msg : String)
deriving DecidableEq

/-- Observable events of a run. -/
inductive Effect where
  | run (cmd : String)
  | msg (text : String)
  | copyfile (src dst : String)
  | copytree (src dst : String)
  | rmtree (path : String)
  | remove (path : String)
  | makedirs (path : String)
  | chdir (path : String)
  | appendFile (path text : String)
deriving DecidableEq

/-- The script monad: state passing plus an effect trace plus abort. -/
def M (α : Type) : Type :=
  St → Except Abort α × St × List Effect

instance : Monad M where
  pure a := fun st => (Except.ok a, st, [])
  bind x f := fun st =>
    match x st with
    | (Except.error e, st1, tr1) => (Except.error e, st1, tr1)
    | (Except.ok a, st1, tr1) =>
      match f a st1 with
      | (r, st2, tr2) => (r, st2, tr1 ++ tr2)

/-- `sys.exit(code)`. -/
def sysExit {α : Type} (code : Nat) : M α :=
  fun st => (Except.error (Abort.exited code), st, [])

/-- Raising an uncaught Python exception. -/
def pyRaise {α : Type} (m : String) : M α :=
  fun st => (Except.error (Abort.pyError m), st, [])

/-- Python `print`. -/
def emitMsg (t : String) : M Unit :=
  fun st => (Except.ok (), st, [Effect.msg t])

/-- `os.path.isfile`. -/
def isfile (p : String) : M Bool :=
  fun st => (Except.ok (st.fs.files p).isSome, st, [])

/-- `os.path.isdir`. -/
def isdir (p : String) : M Bool :=
  fun st => (Except.ok (st.fs.dirs p), st, [])

/-- `os.getcwd()`. -/
def getCwd : M String :=
  fun st => (Except.ok st.cwd, st, [])

/-- `os.chdir` (modelled as always succeeding). -/
def chdirOp (p : String) : M Unit :=
  fun st => (Except.ok (), { st with cwd := p }, [Effect.chdir p])

/-- `shutil.copyfile`. -/
def copyfileOp (src dst : String) : M Unit :=
  fun st =>
    (Except.ok (),
     { st with fs :=
        { st.fs with files := fun q => if q = dst then st.fs.files src else st.fs.files q } },
     [Effect.copyfile src dst])

/-- `open(p, 'a')` followed by `f.write(t)`: append, creating if absent. -/
def appendFileOp (p t : String) : M Unit :=
  fun st =>
    (Except.ok (),
     { st with fs :=
        { st.fs with files := fun q =>
            if q = p then some (((st.fs.files p).getD "") ++ t) else st.fs.files q } },
     [Effect.appendFile p t])

/-- `os.makedirs`. -/
def makedirsOp (p : String) : M Unit :=
  fun st =>
    (Except.ok (),
     { st with fs := { st.fs with dirs := fun q => if q = p then true else st.fs.dirs q } },
     [Effect.makedirs p])

/-- `os.remove`. -/
def removeOp (p : String) : M Unit :=
  fun st =>
    (Except.ok (),
     { st with fs :=
        { st.fs with files := fun q => if q = p then none else st.fs.files q } },
     [Effect.remove p])

/-- `shutil.rmtree`: the directory and everything below it disappear. -/
def rmtreeOp (p : String) : M Unit :=
  fun st =>
    (Except.ok (),
     { st with fs :=
        { files := fun q => if pStarts (p ++ "/") q || q == p then none else st.fs.files q,
          dirs := fun q => if pStarts (p ++ "/") q || q == p then false else st.fs.dirs q } },
     [Effect.rmtree p])

/-- `shutil.copytree src dst`: afterwards the tree below `dst` mirrors the
tree below `src`. -/
def copytreeOp (src dst : String) : M Unit :=
  fun st =>
    (Except.ok (),
     { st with fs :=
        { files := fun q =>
            if pStarts (dst ++ "/") q then
              st.fs.files (src ++ String.mk (q.data.drop dst.data.length))
            else st.fs.files q,
          dirs := fun q => if q = dst then true else st.fs.dirs q } },
     [Effect.copytree src dst])

/-- Hand the command to the world: one `Effect.run`, the world's status
and output come back, its filesystem changes are installed. -/
def runCmdOp (w : World) (cmd : String) : M (Nat × String) :=
  fun st =>
    (Except.ok ((w.exec cmd st.fs).status, (w.exec cmd st.fs).out),
     { st with fs := (w.exec cmd st.fs).fsAfter },
     [Effect.run cmd])

/-- `os.listdir`. -/
def listdirOp (w : World) (p : String) : M (List String) :=
  fun st => (Except.ok (w.listdir p st.fs), st, [])

/-! ## Constants of build.py -/

def COMPILER : String := "clang++"
def CPP_STD : String := "c++14"
def STD_LIB : String := "libc++"
def IOS_MIN_VERSION : String := "8.0"
def OSX_MIN_VERSION : String := "10.10"

def BOOST_LIBS : List String := ["chrono", "thread", "system"]

def BOOST_HEADERS : List String :=
  ["algorithm", "any", "exception", "iostreams", "optional", "typeof", "variant",
   "boost/circular_buffer.hpp", "boost/container/flat_map.hpp",
   "boost/container/flat_set.hpp", "boost/scope_exit.hpp", "boost/uuid/sha1.hpp"]

/-- `ARCHITECTURES` as rebound at module level (line 139): a flat tuple. -/
def ARCHES : List String := ["armv7", "arm64", "i386", "x86_64"]

/-- Module-level `BUILD_DIR = os.path.join(os.getcwd(), 'build')`, as a
function of the working directory at import time. -/
def BUILD_DIR (cwd0 : String) : String := pyJoin cwd0 "build"

def BOOST_ROOT (cwd0 : String) : String := pyJoin (BUILD_DIR cwd0) "boost_1_60_0"

def BUILD_IOS_LIB_DIR (cwd0 : String) : String := pyJoin (BUILD_DIR cwd0) "libs/boost/lib"

def OUTPUT_DIR_SRC (cwd0 : String) : String := pyJoin cwd0 "include/boost"

def OUTPUT_DIR_LIB (cwd0 : String) : String := pyJoin cwd0 "lib"

/-! ## Shell wrappers -/

/-- `shell_output(cmd, ignore_failure)`: run the command silently
accumulating output; on nonzero status without `ignore_failure` print the
failing command and `sys.exit(1)`; otherwise return the output,
right-stripped. -/
def shell_output (w : World) (cmd : String) (ignoreFailure : Bool) : M String := do
  let r ← runCmdOp w cmd
  if r.1 != 0 && !ignoreFailure then do
    emitMsg (cmd ++ " failed with status " ++ toString r.1)
    sysExit 1
  else
    pure (pyRstrip r.2)

/-- `shell(cmd, ignore_failure)`: run the command echoing output; on
nonzero status without `ignore_failure` print the failing command and
`sys.exit(1)`. -/
def shell (w : World) (cmd : String) (ignoreFailure : Bool) : M Unit := do
  let r ← runCmdOp w cmd
  if r.1 != 0 && !ignoreFailure then do
    emitMsg (cmd ++ " failed with status " ++ toString r.1)
    sysExit 1
  else
    pure ()

/-! ## BuildEnv -/

/-- The `BuildEnv` object after `__init__`: the root of the build area and
the three probed toolchain strings (the mutable `dir_stack` lives in
`St`). -/
structure BuildEnvT where
  root : String
  xcodeRoot : String
  iosSdkVersion : String
  osxSdkVersion : String

/-- `self.ios_simulator_root`, derived in `BuildEnv.__init__`. -/
def iosSimulatorRoot (env : BuildEnvT) : String :=
  pyJoin env.xcodeRoot
    ("Platforms/iPhoneSimulator.platform/Developer/SDKs/iPhoneSimulator"
      ++ env.iosSdkVersion ++ ".sdk")

/-- `BuildEnv.__init__`: three `shell_output` probes. -/
def mkBuildEnv (w : World) (root : String) : M BuildEnvT := do
  let xr ← shell_output w "xcode-select -print-path" false
  let iv ← shell_output w "xcrun -sdk iphoneos --show-sdk-version" false
  let ov ← shell_output w "xcrun -sdk macosx --show-sdk-version" false
  pure { root := root, xcodeRoot := xr, iosSdkVersion := iv, osxSdkVersion := ov }

/-- `BuildEnv.resolve_path`. -/
def resolve_path (env : BuildEnvT) (rel : String) : String := pyJoin env.root rel

/-- `BuildEnv.make_dir`. -/
def make_dir (env : BuildEnvT) (rel : String) : M String := do
  let p := resolve_path env rel
  let d ← isdir p
  if !d then do
    emitMsg ("Creating " ++ p)
    makedirsOp p
  else
    pure ()
  pure p

/-- `BuildEnv.prepare`. -/
def envPrepare (env : BuildEnvT) : M Unit := do
  let _ ← make_dir env ""
  pure ()

/-- `BuildEnv.cd`. -/
def envCd (p : String) : M Unit := do
  emitMsg ("cd " ++ p)
  chdirOp p

/-- Push the current working directory on `dir_stack`. -/
def pushCwd : M Unit :=
  fun st => (Except.ok (), { st with dirStack := st.cwd :: st.dirStack }, [])

/-- `BuildEnv.push_dir`. -/
def push_dir (env : BuildEnvT) (rel : String) : M Unit := do
  pushCwd
  envCd (resolve_path env rel)

/-- `BuildEnv.pop_dir`: change back to the popped directory if the stack
is nonempty, otherwise do nothing. -/
def pop_dir : M Unit :=
  fun st =>
    match st.dirStack with
    | [] => (Except.ok (), st, [])
    | d :: rest => envCd d { st with dirStack := rest }

/-! ## BoostSource -/

/-- The `BoostSource` object after `__init__` (pure path derivations). -/
structure BoostSrc where
  version : String
  versionUnderscore : String
  root : String
  tarballUrl : String
  tarballPath : String
  configPath : String

/-- `BoostSource.__init__`. -/
def mkBoostSrc (env : BuildEnvT) (version : String) : BoostSrc :=
  let vu := pyDotToUnderscore version
  let root := resolve_path env ("boost_" ++ vu)
  { version := version
    versionUnderscore := vu
    root := root
    tarballUrl := "http://sourceforge.net/projects/boost/files/boost/" ++ version
      ++ "/boost_" ++ vu ++ ".tar.bz2/download"
    tarballPath := pyJoin env.root ("boost_" ++ vu ++ ".tar.bz2")
    configPath := pyJoin root "user-config.jam" }

/-- `BoostSource.resolve_path`. -/
def bsResolve (bs : BoostSrc) (rel : String) : String := pyJoin bs.root rel

/-- `BoostSource.download`. -/
def download (w : World) (bs : BoostSrc) : M Unit := do
  let f ← isfile bs.tarballPath
  if f then
    emitMsg ("Found Boost " ++ bs.version ++ " tarball: " ++ bs.tarballPath)
  else do
    emitMsg ("Downloading Boost " ++ bs.version ++ " tarball: " ++ bs.tarballPath)
    shell w ("curl -L -o " ++ bs.tarballPath ++ " " ++ bs.tarballUrl) false

/-- `BoostSource.unpack`. -/
def unpack (w : World) (env : BuildEnvT) (bs : BoostSrc) : M Unit := do
  let f ← isfile bs.tarballPath
  if !f then
    emitMsg ("Boost " ++ bs.version ++ " tarball not found: " ++ bs.tarballPath)
  else
    pure ()
  let d ← isdir bs.root
  if d then
    emitMsg ("Found Boost " ++ bs.version ++ " source: " ++ bs.root)
  else do
    let _ ← make_dir env bs.root
    push_dir env env.root
    emitMsg ("Unpacking Boost " ++ bs.version ++ " tarball in " ++ env.root)
    shell w ("tar xfj " ++ bs.tarballPath) false
    pop_dir

/-- Body of one iteration of the loop in
`BoostSource.invent_missing_headers`. -/
def inventHeader (env : BuildEnvT) (bs : BoostSrc) (filename : String) : M Unit := do
  let fp := pyJoin (pyJoin (iosSimulatorRoot env) "usr/include") filename
  let f ← isfile fp
  if !f then do
    emitMsg ("File doesn\x27t exist: " ++ fp)
    sysExit 1
  else do
    let dst := bsResolve bs filename
    let g ← isfile dst
    if !g then do
      emitMsg ("Copying " ++ filename)
      copyfileOp fp dst
    else
      pure ()

def inventList (env : BuildEnvT) (bs : BoostSrc) : List String → M Unit
  | [] => pure ()
  | f :: rest => do
    inventHeader env bs f
    inventList env bs rest

/-- `BoostSource.invent_missing_headers`. -/
def invent_missing_headers (env : BuildEnvT) (bs : BoostSrc) : M Unit :=
  inventList env bs ["crt_externs.h", "bzlib.h"]

/-- `BoostSource.bootstrap`. -/
def bootstrapStep (w : World) (env : BuildEnvT) (bs : BoostSrc) : M Unit := do
  push_dir env bs.root
  emitMsg ("Bootstrapping Boost " ++ bs.version ++ " with "
    ++ String.intercalate ", " BOOST_LIBS)
  shell w ("./bootstrap.sh --with-libraries=" ++ String.intercalate "," BOOST_LIBS) false
  pop_dir

/-- The iOS-device arch flags and sysroot of the generated config, a
contiguous chunk of the first toolset stanza. -/
def archSysrootIos (env : BuildEnvT) : String :=
  "-arch armv7 -arch arm64 \"-isysroot " ++ env.xcodeRoot
    ++ "/Platforms/iPhoneOS.platform/Developer/SDKs/iPhoneOS"
    ++ env.iosSdkVersion ++ ".sdk\""

/-- The simulator arch flags and sysroot chunk of the second stanza. -/
def archSysrootSim (env : BuildEnvT) : String :=
  "-arch i386 -arch x86_64 \"-isysroot " ++ env.xcodeRoot
    ++ "/Platforms/iPhoneSimulator.platform/Developer/SDKs/iPhoneSimulator"
    ++ env.iosSdkVersion ++ ".sdk\""

/-- The macOS arch flags and sysroot chunk of the third stanza. -/
def archSysrootOsx (env : BuildEnvT) : String :=
  "-arch i386 -arch x86_64 \"-isysroot " ++ env.xcodeRoot
    ++ "/Platforms/MacOSX.platform/Developer/SDKs/MacOSX"
    ++ env.osxSdkVersion ++ ".sdk\""

/-- First toolset stanza of `BoostSource.config_contents` (iOS device). -/
def configStanzaIos (env : BuildEnvT) : String :=
  "\nusing darwin : " ++ env.iosSdkVersion ++ "~iphone\n: " ++ env.xcodeRoot
    ++ "/Toolchains/XcodeDefault.xctoolchain/usr/bin/" ++ COMPILER ++ " "
    ++ archSysrootIos env ++ " -I" ++ env.xcodeRoot
    ++ "/Platforms/iPhoneOS.platform/Developer/SDKs/iPhoneOS" ++ env.iosSdkVersion
    ++ ".sdk/usr/include\n: <striper> <root>" ++ env.xcodeRoot
    ++ "/Platforms/iPhoneOS.platform/Developer\n: <architecture>arm <target-os>iphone\n;"

/-- Second toolset stanza (iOS simulator). -/
def configStanzaSim (env : BuildEnvT) : String :=
  "\nusing darwin : " ++ env.iosSdkVersion ++ "~iphonesim\n: " ++ env.xcodeRoot
    ++ "/Toolchains/XcodeDefault.xctoolchain/usr/bin/" ++ COMPILER ++ " "
    ++ archSysrootSim env ++ " -I" ++ env.xcodeRoot
    ++ "/Platforms/iPhoneSimulator.platform/Developer/SDKs/iPhoneSimulator"
    ++ env.iosSdkVersion ++ ".sdk/usr/include\n: <striper> <root>" ++ env.xcodeRoot
    ++ "/Platforms/iPhoneSimulator.platform/Developer\n: <architecture>x86 <target-os>iphone\n;"

/-- Third toolset stanza (macOS). -/
def configStanzaOsx (env : BuildEnvT) : String :=
  "\nusing darwin : " ++ env.osxSdkVersion ++ "~osx\n: " ++ env.xcodeRoot
    ++ "/Toolchains/XcodeDefault.xctoolchain/usr/bin/" ++ COMPILER ++ " "
    ++ archSysrootOsx env ++ " -I" ++ env.xcodeRoot
    ++ "/Platforms/MacOSX.platform/Developer/SDKs/MacOSX" ++ env.osxSdkVersion
    ++ ".sdk/usr/include\n: <striper> <root>" ++ env.xcodeRoot
    ++ "/Platforms/MacOSX.platform/Developer\n: <architecture>x86 <target-os>darwin\n;"

/-- `BoostSource.config_contents`: the template string with the three
substituted stanzas, including its leading newline and the trailing
newline-plus-indentation of the Python triple-quoted literal. -/
def config_contents (env : BuildEnvT) : String :=
  configStanzaIos env ++ configStanzaSim env ++ configStanzaOsx env ++ "\n        "

/-- `BoostSource.create_config`. -/
def create_config (env : BuildEnvT) (bs : BoostSrc) : M Unit := do
  let c ← isfile bs.configPath
  if !c then do
    let templatePath := pyJoin bs.root "tools/build/example/user-config.jam"
    let t ← isfile templatePath
    if !t then do
      emitMsg ("File doesn\x27t exist: " ++ templatePath)
      sysExit 1
    else do
      copyfileOp templatePath bs.configPath
      appendFileOp bs.configPath (config_contents env)
  else
    pure ()

/-- `BoostSource.setup`. -/
def setup (w : World) (env : BuildEnvT) (bs : BoostSrc) : M Unit := do
  download w bs
  unpack w env bs
  invent_missing_headers env bs
  bootstrapStep w env bs
  create_config env bs

/-! ## BuildTask -/

/-- `self.relative_build_dir`. -/
def relativeBuildDir (p : String) : String := p ++ "-build"

/-- `BuildTask.common_build_args`. -/
def common_build_args (bs : BoostSrc) (p : String) : List String :=
  ["-j16",
   "--build-dir=" ++ relativeBuildDir p,
   "--stage-dir=" ++ pyJoin (relativeBuildDir p) "stage",
   "--prefix=" ++ pyJoin (relativeBuildDir p) "prefix",
   "linkflags=\"-stdlib=" ++ STD_LIB ++ "\"",
   "link=static",
   "variant=release",
   "-sBOOST_BUILD_USER_CONFIG=" ++ bs.configPath]

/-- `BuildTask.ios_build_args`. -/
def ios_build_args (env : BuildEnvT) : List String :=
  ["macosx-version=iphone-" ++ env.iosSdkVersion,
   "toolset=darwin-" ++ env.iosSdkVersion ++ "~iphone",
   "define=_LITTLE_ENDIAN",
   "architecture=arm"]

/-- `BuildTask.simulator_build_args`. -/
def simulator_build_args (env : BuildEnvT) : List String :=
  ["macosx-version=iphonesim-" ++ env.iosSdkVersion,
   "toolset=darwin-" ++ env.iosSdkVersion ++ "~iphonesim",
   "architecture=x86"]

/-- `BuildTask.osx_build_args`. -/
def osx_build_args (env : BuildEnvT) : List String :=
  ["target-os=darwin",
   "macosx-version=" ++ env.osxSdkVersion,
   "toolset=darwin-" ++ env.osxSdkVersion ++ "~osx",
   "architecture=x86"]

/-- `BuildTask.common_cpp_flags`. -/
def common_cpp_flags : List String :=
  ["-std=" ++ CPP_STD,
   "-stdlib=" ++ STD_LIB,
   "-fvisibility=hidden",
   "-fvisibility-inlines-hidden",
   "-fPIC",
   "-DBOOST_SP_USE_SPINLOCK"]

/-- `BuildTask.ios_and_simulator_cpp_flags`. -/
def ios_and_simulator_cpp_flags : List String :=
  ["-miphoneos-version-min=" ++ IOS_MIN_VERSION, "-fembed-bitcode"]

/-- `BuildTask.osx_cpp_flags`. -/
def osx_cpp_flags : List String :=
  ["-mmacosx-version-min=" ++ OSX_MIN_VERSION]

/-- The known platform names; `cpp_flags` and `build_args` call
`sys.exit(1)` on anything else. -/
def platformKnown (p : String) : Bool :=
  p == "ios" || p == "simulator" || p == "osx"

/-- `BuildTask.cpp_flags` (value on the known platforms). -/
def cpp_flags (p : String) : List String :=
  common_cpp_flags ++
    (if p = "ios" ∨ p = "simulator" then ios_and_simulator_cpp_flags
     else if p = "osx" then osx_cpp_flags
     else [])

/-- `BuildTask.build_args` (value on the known platforms). -/
def build_args (env : BuildEnvT) (bs : BoostSrc) (p t : String) : List String :=
  (common_build_args bs p ++
    (if p = "ios" ∨ p = "simulator" then
      "target-os=iphone" ::
        (if p = "ios" then ios_build_args env else simulator_build_args env)
     else if p = "osx" then osx_build_args env
     else [])) ++
  (if (cpp_flags p).isEmpty then []
   else ["cxxflags=\"" ++ String.intercalate " " (cpp_flags p) ++ "\""]) ++
  [t]

/-- The full `./b2` command line of `BuildTask.run`. -/
def b2Command (env : BuildEnvT) (bs : BoostSrc) (p t : String) : String :=
  "./b2 " ++ String.intercalate " " (build_args env bs p t)

/-- `BuildTask.run`: push into the source root, announce, invoke the build
tool.  On an unknown platform `build_args` (via `cpp_flags`) prints a
diagnostic and exits before any command is run. -/
def task_run (w : World) (env : BuildEnvT) (bs : BoostSrc) (p t : String) : M Unit := do
  push_dir env bs.root
  emitMsg ("Running " ++ t ++ " target on " ++ p)
  if platformKnown p then do
    shell w (b2Command env bs p t) false
    pop_dir
  else do
    emitMsg ("Unexpected platform: " ++ p)
    sysExit 1

/-! ## The entry point -/

/-- The `tasks` dict of `__main__`, as a lookup function. -/
def tasksFor (p : String) : List String :=
  if p = "ios" then ["stage", "install"]
  else if p = "simulator" then ["stage"]
  else if p = "osx" then ["stage"]
  else []

/-- `platforms = tasks.keys()`: CPython 2.7 dict key order of the literal
`{ios: ..., simulator: ..., osx: ...}`. -/
def buildPlatforms : List String :=
  pyDict8Keys ["ios", "simulator", "osx"]

def runTargets (w : World) (env : BuildEnvT) (bs : BoostSrc) (p : String) :
    List String → M Unit
  | [] => pure ()
  | t :: rest => do
    task_run w env bs p t
    runTargets w env bs p rest

def runPlatforms (w : World) (env : BuildEnvT) (bs : BoostSrc) :
    List String → M Unit
  | [] => pure ()
  | p :: rest => do
    runTargets w env bs p (tasksFor p)
    runPlatforms w env bs rest

/-- The per-platform build loop of `__main__` (lines 555-558). -/
def buildLoop (w : World) (env : BuildEnvT) (bs : BoostSrc) : M Unit :=
  runPlatforms w env bs buildPlatforms

/-- The three `shell_output` probes run at import time to initialise the
module-level constants `XCODE_ROOT`, `IOS_SDK_VERSION`, `OSX_SDK_VERSION`
(lines 135-137). -/
def moduleProbes (w : World) : M Unit := do
  let _ ← shell_output w "xcode-select -print-path" false
  let _ ← shell_output w "xcrun -sdk iphoneos --show-sdk-version" false
  let _ ← shell_output w "xcrun -sdk macosx --show-sdk-version" false
  pure ()

/-- The whole run of the script: module import (the three probes), then
the `__main__` block — BuildEnv construction and `prepare()`,
`BoostSource(...).setup()`, and the per-platform build loop.  The
`package()`, `bcp()` and `clean()` calls are commented out in the source
and so do not appear. -/
def main_run (w : World) (cwd0 : String) : M Unit := do
  moduleProbes w
  let env ← mkBuildEnv w (pyJoin cwd0 "build")
  envPrepare env
  let bs := mkBoostSrc env "1.60.0"
  setup w env bs
  buildLoop w env bs

/-! ## package() and bcp()

Both functions call a module-level `make_dir(...)`.  No such name exists
in the script: `make_dir` is only defined as a method of `BuildEnv`, so
at the moment of the call CPython raises `NameError` (the callee name is
looked up before its arguments are evaluated), which is uncaught and
terminates the process. -/

/-- The unbound module-level `make_dir` reference in `prepare()`,
`package()` and `bcp()`: raises `NameError` when reached. -/
def make_dir_unbound {α : Type} : M α :=
  pyRaise "NameError: global name make_dir is not defined"

/-- `platform_for_arch`. -/
def platform_for_arch (arch : String) : M String :=
  if arch = "armv7" ∨ arch = "arm64" then pure "iphone"
  else if arch = "i386" ∨ arch = "x86_64" then pure "iphonesim"
  else do
    emitMsg ("Invalid architecture: " ++ arch)
    sysExit 1

/-- `sdk_for_platform`. -/
def sdk_for_platform (p : String) : M String :=
  if p = "iphone" then pure "iphoneos"
  else if p = "iphonesim" then pure "iphonesimulator"
  else do
    emitMsg ("Invalid platform: " ++ p)
    sysExit 1

/-- The first loop of `package()`:
`for arch in ARCHITECTURES: make_dir(...)` — the unbound name is looked
up on the first iteration. -/
def packageMakeDirs : List String → M Unit
  | [] => pure ()
  | _ :: rest => do
    let _ ← (make_dir_unbound : M String)
    packageMakeDirs rest

/-- Filter of a directory listing keeping names that are files
(`os.path.isfile(os.path.join(dir, name))`). -/
def filterFiles (dir : String) : List String → M (List String)
  | [] => pure []
  | n :: rest => do
    let f ← isfile (pyJoin dir n)
    let others ← filterFiles dir rest
    pure (if f then n :: others else others)

/-- Body of the inner thinning loop of `package()` for one
(archive, architecture) pair: `lipo -thin` through the fatal `shell`
wrapper, then `ar -x` in the per-architecture `obj` directory. -/
def packageThin (w : World) (cwd0 : String) (lib arch : String) : M Unit := do
  let innerCwd ← getCwd
  let pl ← platform_for_arch arch
  shell w ("xcrun --sdk iphoneos lipo \"" ++ pl ++ "-build/stage/lib/" ++ lib
    ++ "\" -thin " ++ arch ++ " -o \"" ++ BUILD_IOS_LIB_DIR cwd0 ++ "/" ++ arch
    ++ "/" ++ lib ++ "\"") false
  chdirOp (BUILD_IOS_LIB_DIR cwd0 ++ "/" ++ arch ++ "/obj")
  shell w ("ar -x ../" ++ lib) false
  chdirOp innerCwd

def packageThinArchs (w : World) (cwd0 : String) (lib : String) :
    List String → M Unit
  | [] => pure ()
  | a :: rest => do
    packageThin w cwd0 lib a
    packageThinArchs w cwd0 lib rest

def packageThinAll (w : World) (cwd0 : String) : List String → M Unit
  | [] => pure ()
  | l :: rest => do
    packageThinArchs w cwd0 l ARCHES
    packageThinAll w cwd0 rest

/-- Body of the collection loop of `package()` for one architecture:
remove a stale `libboost.a`, re-assemble it from the extracted object
files, and return its absolute path. -/
def packageCollect (w : World) (cwd0 : String) (arch : String) : M String := do
  let innerCwd ← getCwd
  chdirOp (BUILD_IOS_LIB_DIR cwd0 ++ "/" ++ arch)
  let f ← isfile "libboost.a"
  if f then removeOp "libboost.a" else pure ()
  let cur ← getCwd
  let objDir := pyJoin cur "obj"
  let entries ← listdirOp w "obj"
  let entries2 ← filterFiles objDir entries
  let objFiles := (entries2.filter (fun o => pEnds ".o" o)).map (fun o => pyJoin objDir o)
  let pl ← platform_for_arch arch
  let sdk ← sdk_for_platform pl
  shell w ("xcrun --sdk " ++ sdk ++ " ar crus libboost.a "
    ++ String.intercalate " " objFiles) false
  let cur2 ← getCwd
  chdirOp innerCwd
  pure (pyJoin cur2 "libboost.a")

def packageCollectAll (w : World) (cwd0 : String) : List String → M (List String)
  | [] => pure []
  | a :: rest => do
    let p ← packageCollect w cwd0 a
    let ps ← packageCollectAll w cwd0 rest
    pure (p :: ps)

/-- `package()`.  The run never gets past `packageMakeDirs`: the first
iteration looks up the unbound `make_dir` and the process dies with
`NameError`.  The remainder (thinning, collection, fat-lib merge) is
translated for completeness but is unreachable. -/
def package (w : World) (cwd0 : String) : M Unit := do
  let cwd ← getCwd
  chdirOp (BOOST_ROOT cwd0)
  packageMakeDirs ARCHES
  let entries ← listdirOp w "iphone-build/stage/lib"
  let libs ← filterFiles "iphone-build/stage/lib" entries
  packageThinAll w cwd0 libs
  emitMsg "Collecting architecture-specific products"
  let boostLibs ← packageCollectAll w cwd0 ARCHES
  emitMsg ("Creating the fat lib at " ++ OUTPUT_DIR_LIB cwd0 ++ "/libboost.a")
  shell w ("lipo -c " ++ String.intercalate " " boostLibs ++ " -output "
    ++ OUTPUT_DIR_LIB cwd0 ++ "/libboost.a") false
  chdirOp cwd

/-- `bcp()`: build the extraction tool if its binary is missing (exiting
if it is still missing afterwards), then — in the source — extract into a
temporary tree and install the headers wholesale.  The `make_dir(tmp_dir)`
call hits the unbound module-level name, so the extraction and
installation half is unreachable. -/
def bcp (w : World) (cwd0 : String) : M Unit := do
  let cwd ← getCwd
  chdirOp (BOOST_ROOT cwd0)
  let bcpPath := pyJoin (BOOST_ROOT cwd0) "dist/bin/bcp"
  let f ← isfile bcpPath
  if !f then do
    emitMsg "Building bcp"
    shell w "./b2 tools/bcp" false
    let g ← isfile bcpPath
    if !g then do
      emitMsg "Unable to build bcp"
      sysExit 1
    else
      pure ()
  else
    pure ()
  let tmpDir := pyJoin (BOOST_ROOT cwd0) "tmp"
  let _ ← (make_dir_unbound : M String)
  emitMsg ("Extracting " ++ String.intercalate " " (BOOST_LIBS ++ BOOST_HEADERS))
  shell w (bcpPath ++ " " ++ String.intercalate " " (BOOST_LIBS ++ BOOST_HEADERS)
    ++ " " ++ tmpDir) false
  let d ← isdir (OUTPUT_DIR_SRC cwd0)
  if d then rmtreeOp (OUTPUT_DIR_SRC cwd0) else pure ()
  emitMsg ("Installing headers in " ++ OUTPUT_DIR_SRC cwd0)
  copytreeOp (pyJoin tmpDir "boost") (OUTPUT_DIR_SRC cwd0)
  chdirOp cwd

/-! ## Projections and fixtures -/

/-- The effect trace of running `m` from `st`. -/
def traceOf (m : M Unit) (st : St) : List Effect := (m st).2.2

/-- The outcome of running `m` from `st`. -/
def resultOf (m : M Unit) (st : St) : Except Abort Unit := (m st).1

/-- The final state of running `m` from `st`. -/
def stateOf (m : M Unit) (st : St) : St := (m st).2.1

/-- The external commands of a trace, in order. -/
def runCmds (tr : List Effect) : List String :=
  tr.filterMap (fun e => match e with | Effect.run c => some c | _ => none)

/-- An empty filesystem. -/
def fsEmpty : FS := { files := fun _ => none, dirs := fun _ => false }

/-- A starting state for concrete runs. -/
def stInit : St := { fs := fsEmpty, cwd := "/w", dirStack := [] }

/-- A world in which every command succeeds and leaves the filesystem
alone. -/
def wOk : World :=
  { exec := fun _ fs => { status := 0, fsAfter := fs, out := "probe" },
    listdir := fun _ _ => [] }

/-- A concrete build environment. -/
def envC : BuildEnvT :=
  { root := "/w/build", xcodeRoot := "/xc", iosSdkVersion := "9.3",
    osxSdkVersion := "10.11" }

/-- The concrete Boost source object for version 1.60.0 under `envC`. -/
def bsC : BoostSrc := mkBoostSrc envC "1.60.0"

/-- A world in which every command fails with status 1 and leaves the
filesystem alone. -/
def wFail : World :=
  { exec := fun _ fs => { status := 1, fsAfter := fs, out := "" },
    listdir := fun _ _ => [] }

/-- Substring containment, stated on the underlying character lists. -/
def containsSub (s sub : String) : Prop :=
  ∃ l r : List Char, s.data = l ++ sub.data ++ r

/-- Number of `;` characters in a string (each generated toolset stanza is
terminated by exactly one). -/
def countSemis (s : String) : Nat :=
  s.data.count ';'

/-- A filesystem for exercising header patching: both headers exist in
the simulator SDK, the source tree already holds `bzlib.h` but not
`crt_externs.h`. -/
def fsC7 : FS :=
  { files := fun p =>
      if p = pyJoin (pyJoin (iosSimulatorRoot envC) "usr/include") "crt_externs.h" then some "ce"
      else if p = pyJoin (pyJoin (iosSimulatorRoot envC) "usr/include") "bzlib.h" then some "bz"
      else if p = bsResolve bsC "bzlib.h" then some "old"
      else none,
    dirs := fun _ => false }

/-- Starting state for the header-patching witness. -/
def stC7 : St := { fs := fsC7, cwd := "/w", dirStack := [] }

/-- A world for the packaging scenario of the specification: the
`iphone-build/stage/lib` listing holds one archive and every
architecture-thinning `lipo` invocation fails (as it would when the
architecture is not present in the archive); all other commands succeed. -/
def wC2 : World :=
  { exec := fun c fs =>
      { status := if pStarts "xcrun --sdk iphoneos lipo " c then 1 else 0,
        fsAfter := fs, out := "" },
    listdir := fun _ _ => ["libboost_chrono.a"] }

/-- A state in which the bcp binary already exists at `dist/bin/bcp`. -/
def stC8 : St :=
  { fs := { files := fun p =>
              if p = pyJoin (BOOST_ROOT "/w") "dist/bin/bcp" then some "bin" else none,
            dirs := fun _ => false },
    cwd := "/w", dirStack := [] }

/-- The command shapes a run of the entry point can issue: the three
toolchain probes, the tarball fetch, the tarball extraction, the
bootstrap step, and the `./b2 -j16 ...` build invocations. -/
def mainCmdOk (c : String) : Bool :=
  c == "xcode-select -print-path"
  || c == "xcrun -sdk iphoneos --show-sdk-version"
  || c == "xcrun -sdk macosx --show-sdk-version"
  || pStarts "curl -L -o " c
  || pStarts "tar xfj " c
  || pStarts "./bootstrap.sh --with-libraries=" c
  || pStarts "./b2 -j16 " c

/-- The command shapes of the packaging and header-extraction steps:
`xcrun --sdk ...` wrappers around `lipo`/`ar`, bare `lipo -c`/`ar -x`
calls, and the `./b2 tools/bcp` build of the extraction tool. -/
def pkgCmd (c : String) : Bool :=
  pStarts "xcrun --sdk " c || pStarts "lipo " c || pStarts "ar " c
  || c == "./b2 tools/bcp"

/-- Effects the entry point may produce: any print, copy, append, mkdir
or chdir, and only `mainCmdOk` commands; never a tree removal, file
removal or tree copy. -/
def mainEffectOk (e : Effect) : Bool :=
  match e with
  | Effect.run c => mainCmdOk c
  | Effect.rmtree _ => false
  | Effect.remove _ => false
  | Effect.copytree _ _ => false
  | _ => true

/-- Effects characteristic of `package()`, `bcp()` and `clean()`: their
command shapes, tree removals, file removals, and tree copies. -/
def pkgEffect (e : Effect) : Bool :=
  match e with
  | Effect.run c => pkgCmd c
  | Effect.rmtree _ => true
  | Effect.remove _ => true
  | Effect.copytree _ _ => true
  | _ => false

/-- `m` only ever appends effects satisfying `P` to the trace. -/
def EmitsB (P : Effect → Bool) {α : Type} (m : M α) : Prop :=
  ∀ st e, e ∈ (m st).2.2 → P e = true

/-! ## Evaluation lemmas for the monad -/

theorem run_bind {α β : Type} (x : M α) (f : α → M β) (st : St) :
    (x >>= f) st =
      (match x st with
       | (Except.error e, st1, tr1) => (Except.error e, st1, tr1)
       | (Except.ok a, st1, tr1) =>
         match f a st1 with
         | (r, st2, tr2) => (r, st2, tr1 ++ tr2)) := rfl

theorem run_pure {α : Type} (a : α) (st : St) :
    (pure a : M α) st = (Except.ok a, st, []) := rfl

theorem run_sysExit {α : Type} (c : Nat) (st : St) :
    (sysExit c : M α) st = (Except.error (Abort.exited c), st, []) := rfl

theorem run_pyRaise {α : Type} (m : String) (st : St) :
    (pyRaise m : M α) st = (Except.error (Abort.pyError m), st, []) := rfl

theorem run_emitMsg (t : String) (st : St) :
    emitMsg t st = (Except.ok (), st, [Effect.msg t]) := rfl

theorem run_isfile (p : String) (st : St) :
    isfile p st = (Except.ok (st.fs.files p).isSome, st, []) := rfl

theorem run_isdir (p : String) (st : St) :
    isdir p st = (Except.ok (st.fs.dirs p), st, []) := rfl

theorem run_getCwd (st : St) :
    getCwd st = (Except.ok st.cwd, st, []) := rfl

theorem run_chdirOp (p : String) (st : St) :
    chdirOp p st = (Except.ok (), { st with cwd := p }, [Effect.chdir p]) := rfl

theorem run_copyfileOp (src dst : String) (st : St) :
    copyfileOp src dst st =
      (Except.ok (),
       { st with fs :=
          { st.fs with files := fun q => if q = dst then st.fs.files src else st.fs.files q } },
       [Effect.copyfile src dst]) := rfl

theorem run_appendFileOp (p t : String) (st : St) :
    appendFileOp p t st =
      (Except.ok (),
       { st with fs :=
          { st.fs with files := fun q =>
              if q = p then some (((st.fs.files p).getD "") ++ t) else st.fs.files q } },
       [Effect.appendFile p t]) := rfl

theorem run_makedirsOp (p : String) (st : St) :
    makedirsOp p st =
      (Except.ok (),
       { st with fs := { st.fs with dirs := fun q => if q = p then true else st.fs.dirs q } },
       [Effect.makedirs p]) := rfl

theorem run_removeOp (p : String) (st : St) :
    removeOp p st =
      (Except.ok (),
       { st with fs :=
          { st.fs with files := fun q => if q = p then none else st.fs.files q } },
       [Effect.remove p]) := rfl

theorem run_runCmdOp (w : World) (cmd : String) (st : St) :
    runCmdOp w cmd st =
      (Except.ok ((w.exec cmd st.fs).status, (w.exec cmd st.fs).out),
       { st with fs := (w.exec cmd st.fs).fsAfter },
       [Effect.run cmd]) := rfl

theorem run_listdirOp (w : World) (p : String) (st : St) :
    listdirOp w p st = (Except.ok (w.listdir p st.fs), st, []) := rfl

theorem run_pushCwd (st : St) :
    pushCwd st = (Except.ok (), { st with dirStack := st.cwd :: st.dirStack }, []) := rfl

/-! ## Claim theorems -/

/-- Claim C10: for every starting state, `push_dir p` immediately followed
by `pop_dir` restores the current working directory (and the directory
stack) to their values before the push; and `pop_dir` on an empty
directory stack is an error-free no-op that leaves the working directory
unchanged. -/
theorem c10_push_pop_restores (env : BuildEnvT) (rel : String) (st : St) :
    ((push_dir env rel >>= fun _ => pop_dir) st).1 = Except.ok () ∧
    (((push_dir env rel >>= fun _ => pop_dir) st).2.1).cwd = st.cwd ∧
    (((push_dir env rel >>= fun _ => pop_dir) st).2.1).dirStack = st.dirStack ∧
    (st.dirStack = [] → pop_dir st = (Except.ok (), st, [])) := by
  refine ⟨?_, ?_, ?_, ?_⟩
  · simp [push_dir, pop_dir, envCd, run_bind, run_pushCwd, run_emitMsg, run_chdirOp]
  · simp [push_dir, pop_dir, envCd, run_bind, run_pushCwd, run_emitMsg, run_chdirOp]
  · simp [push_dir, pop_dir, envCd, run_bind, run_pushCwd, run_emitMsg, run_chdirOp]
  · intro h
    simp [pop_dir, h]

/-- Witness for C10 at a concrete state: the empty-stack hypothesis holds
of `stInit` and popping there is a no-op. -/
theorem c10_witness :
    stInit.dirStack = [] ∧ pop_dir stInit = (Except.ok (), stInit, []) :=
  ⟨rfl, (c10_push_pop_restores envC "sub" stInit).2.2.2 rfl⟩

/-- Claim C3: for both shell wrappers, a nonzero exit status without the
ignore-failure flag prints a message naming the failing command and
terminates the process with exit code 1; with the flag, or on status 0,
execution continues normally (and `shell_output` returns the
right-stripped captured output). -/
theorem c3_shell_wrappers (w : World) (cmd : String) (st : St) :
    ((w.exec cmd st.fs).status ≠ 0 →
      shell w cmd false st =
        (Except.error (Abort.exited 1),
         { st with fs := (w.exec cmd st.fs).fsAfter },
         [Effect.run cmd,
          Effect.msg (cmd ++ " failed with status " ++ toString (w.exec cmd st.fs).status)])) ∧
    (shell w cmd true st =
      (Except.ok (), { st with fs := (w.exec cmd st.fs).fsAfter }, [Effect.run cmd])) ∧
    ((w.exec cmd st.fs).status = 0 →
      shell w cmd false st =
        (Except.ok (), { st with fs := (w.exec cmd st.fs).fsAfter }, [Effect.run cmd])) ∧
    ((w.exec cmd st.fs).status ≠ 0 →
      shell_output w cmd false st =
        (Except.error (Abort.exited 1),
         { st with fs := (w.exec cmd st.fs).fsAfter },
         [Effect.run cmd,
          Effect.msg (cmd ++ " failed with status " ++ toString (w.exec cmd st.fs).status)])) ∧
    (shell_output w cmd true st =
      (Except.ok (pyRstrip (w.exec cmd st.fs).out),
       { st with fs := (w.exec cmd st.fs).fsAfter }, [Effect.run cmd])) ∧
    ((w.exec cmd st.fs).status = 0 →
      shell_output w cmd false st =
        (Except.ok (pyRstrip (w.exec cmd st.fs).out),
         { st with fs := (w.exec cmd st.fs).fsAfter }, [Effect.run cmd])) := by
  refine ⟨?_, ?_, ?_, ?_, ?_, ?_⟩
  · intro h
    simp [shell, run_bind, run_runCmdOp, run_emitMsg, run_sysExit, run_pure, h]
  · simp [shell, run_bind, run_runCmdOp, run_pure]
  · intro h
    simp [shell, run_bind, run_runCmdOp, run_pure, h]
  · intro h
    simp [shell_output, run_bind, run_runCmdOp, run_emitMsg, run_sysExit, run_pure, h]
  · simp [shell_output, run_bind, run_runCmdOp, run_pure]
  · intro h
    simp [shell_output, run_bind, run_runCmdOp, run_pure, h]

/-- Witness for C3: in the all-failing world the wrapper really reaches
the failure branch and exits with code 1. -/
theorem c3_witness :
    shell wFail "false" false stInit =
      (Except.error (Abort.exited 1),
       { stInit with fs := (wFail.exec "false" stInit.fs).fsAfter },
       [Effect.run "false",
        Effect.msg ("false" ++ " failed with status "
          ++ toString (wFail.exec "false" stInit.fs).status)]) :=
  (c3_shell_wrappers wFail "false" stInit).1 (by decide)

/-- Claim C5: for version string 1.60.0, `BoostSource.__init__`
deterministically derives the unpack directory name `boost_1_60_0` and
the tarball filename `boost_1_60_0.tar.bz2`, both under the build root. -/
theorem c5_derived_names (env : BuildEnvT) :
    (mkBoostSrc env "1.60.0").versionUnderscore = "1_60_0" ∧
    (mkBoostSrc env "1.60.0").root = pyJoin env.root "boost_1_60_0" ∧
    (mkBoostSrc env "1.60.0").tarballPath = pyJoin env.root "boost_1_60_0.tar.bz2" := by
  have h : pyDotToUnderscore "1.60.0" = "1_60_0" := by decide
  have h2 : "boost_" ++ pyDotToUnderscore "1.60.0" = "boost_1_60_0" := by decide
  have h3 : "boost_" ++ pyDotToUnderscore "1.60.0" ++ ".tar.bz2" = "boost_1_60_0.tar.bz2" := by
    decide
  refine ⟨h, ?_, ?_⟩
  · show pyJoin env.root ("boost_" ++ pyDotToUnderscore "1.60.0") = _
    rw [h2]
  · show pyJoin env.root ("boost_" ++ pyDotToUnderscore "1.60.0" ++ ".tar.bz2") = _
    rw [h3]

/-- Claim C4: when the tarball file and the unpack directory both already
exist, the acquisition stage (download then unpack) issues no external
command and leaves the state untouched; when the tarball is absent and
the fetch command itself fails, the process terminates with exit code 1. -/
theorem c4_acquisition (w : World) (env : BuildEnvT) (bs : BoostSrc) (st : St) :
    ((st.fs.files bs.tarballPath).isSome = true →
      download w bs st =
        (Except.ok (), st,
         [Effect.msg ("Found Boost " ++ bs.version ++ " tarball: " ++ bs.tarballPath)])) ∧
    ((st.fs.files bs.tarballPath).isSome = true → st.fs.dirs bs.root = true →
      (download w bs >>= fun _ => unpack w env bs) st =
        (Except.ok (), st,
         [Effect.msg ("Found Boost " ++ bs.version ++ " tarball: " ++ bs.tarballPath),
          Effect.msg ("Found Boost " ++ bs.version ++ " source: " ++ bs.root)])) ∧
    (st.fs.files bs.tarballPath = none →
      (w.exec ("curl -L -o " ++ bs.tarballPath ++ " " ++ bs.tarballUrl) st.fs).status ≠ 0 →
      resultOf (download w bs) st = Except.error (Abort.exited 1)) := by
  refine ⟨?_, ?_, ?_⟩
  · intro h
    simp [download, run_bind, run_isfile, run_emitMsg, h]
  · intro h hd
    simp [download, unpack, run_bind, run_isfile, run_isdir, run_emitMsg, run_pure, h, hd]
  · intro h hc
    simp [download, shell, resultOf, run_bind, run_isfile, run_emitMsg, run_runCmdOp,
      run_sysExit, run_pure, h, hc]

/-- Witness for C4: a concrete state holding the tarball and the unpacked
tree, on which acquisition is a pair of messages and nothing else. -/
theorem c4_witness :
    (download wOk bsC >>= fun _ => unpack wOk envC bsC)
        { fs := { files := fun p => if p = bsC.tarballPath then some "tb" else none,
                  dirs := fun p => p == bsC.root },
          cwd := "/w", dirStack := [] } =
      (Except.ok (),
       { fs := { files := fun p => if p = bsC.tarballPath then some "tb" else none,
                 dirs := fun p => p == bsC.root },
         cwd := "/w", dirStack := [] },
       [Effect.msg ("Found Boost " ++ bsC.version ++ " tarball: " ++ bsC.tarballPath),
        Effect.msg ("Found Boost " ++ bsC.version ++ " source: " ++ bsC.root)]) :=
  (c4_acquisition wOk envC bsC _).2.1 (by simp) (by simp)

/-- Claim C7: header patching walks the fixed list
`[crt_externs.h, bzlib.h]`; a filename absent from the simulator SDK
include directory is a printed diagnostic plus exit 1; a present filename
is copied into the source tree only when no file of that name is already
there, and an existing destination file is left unchanged. -/
theorem c7_invent_missing_headers (env : BuildEnvT) (bs : BoostSrc) (st : St) :
    (st.fs.files (pyJoin (pyJoin (iosSimulatorRoot env) "usr/include") "crt_externs.h") = none →
      invent_missing_headers env bs st =
        (Except.error (Abort.exited 1), st,
         [Effect.msg ("File doesn\x27t exist: "
            ++ pyJoin (pyJoin (iosSimulatorRoot env) "usr/include") "crt_externs.h")])) ∧
    (∀ c1, st.fs.files (pyJoin (pyJoin (iosSimulatorRoot env) "usr/include") "crt_externs.h")
        = some c1 →
      st.fs.files (pyJoin (pyJoin (iosSimulatorRoot env) "usr/include") "bzlib.h") = none →
      st.fs.files (bsResolve bs "crt_externs.h") = none →
      pyJoin (pyJoin (iosSimulatorRoot env) "usr/include") "bzlib.h"
        ≠ bsResolve bs "crt_externs.h" →
      resultOf (invent_missing_headers env bs) st = Except.error (Abort.exited 1) ∧
      traceOf (invent_missing_headers env bs) st =
        [Effect.msg "Copying crt_externs.h",
         Effect.copyfile (pyJoin (pyJoin (iosSimulatorRoot env) "usr/include") "crt_externs.h")
           (bsResolve bs "crt_externs.h"),
         Effect.msg ("File doesn\x27t exist: "
            ++ pyJoin (pyJoin (iosSimulatorRoot env) "usr/include") "bzlib.h")]) ∧
    (∀ c1 c2 y,
      st.fs.files (pyJoin (pyJoin (iosSimulatorRoot env) "usr/include") "crt_externs.h")
        = some c1 →
      st.fs.files (pyJoin (pyJoin (iosSimulatorRoot env) "usr/include") "bzlib.h") = some c2 →
      st.fs.files (bsResolve bs "crt_externs.h") = none →
      st.fs.files (bsResolve bs "bzlib.h") = some y →
      pyJoin (pyJoin (iosSimulatorRoot env) "usr/include") "bzlib.h"
        ≠ bsResolve bs "crt_externs.h" →
      bsResolve bs "bzlib.h" ≠ bsResolve bs "crt_externs.h" →
      resultOf (invent_missing_headers env bs) st = Except.ok () ∧
      traceOf (invent_missing_headers env bs) st =
        [Effect.msg "Copying crt_externs.h",
         Effect.copyfile (pyJoin (pyJoin (iosSimulatorRoot env) "usr/include") "crt_externs.h")
           (bsResolve bs "crt_externs.h")] ∧
      (stateOf (invent_missing_headers env bs) st).fs.files (bsResolve bs "crt_externs.h")
        = some c1 ∧
      (stateOf (invent_missing_headers env bs) st).fs.files (bsResolve bs "bzlib.h")
        = some y) ∧
    (∀ c1 c2 x y,
      st.fs.files (pyJoin (pyJoin (iosSimulatorRoot env) "usr/include") "crt_externs.h")
        = some c1 →
      st.fs.files (pyJoin (pyJoin (iosSimulatorRoot env) "usr/include") "bzlib.h") = some c2 →
      st.fs.files (bsResolve bs "crt_externs.h") = some x →
      st.fs.files (bsResolve bs "bzlib.h") = some y →
      invent_missing_headers env bs st = (Except.ok (), st, [])) := by
  refine ⟨?_, ?_, ?_, ?_⟩
  · intro h
    simp [invent_missing_headers, inventList, inventHeader, run_bind, run_isfile,
      run_emitMsg, run_sysExit, run_pure, h]
  · intro c1 h1 h2 hd1 hne
    constructor
    · simp [invent_missing_headers, inventList, inventHeader, resultOf, run_bind, run_isfile,
        run_emitMsg, run_sysExit, run_copyfileOp, run_pure, h1, h2, hd1, hne]
    · simp [invent_missing_headers, inventList, inventHeader, traceOf, run_bind,
        run_isfile, run_emitMsg, run_sysExit, run_copyfileOp, run_pure, h1, h2, hd1, hne]
  · intro c1 c2 y h1 h2 hd1 hd2 hne1 hne2
    refine ⟨?_, ?_, ?_, ?_⟩
    · simp [invent_missing_headers, inventList, inventHeader, resultOf, run_bind,
        run_isfile, run_emitMsg, run_copyfileOp, run_pure, h1, h2, hd1, hd2, hne1, hne2]
    · simp [invent_missing_headers, inventList, inventHeader, traceOf, run_bind,
        run_isfile, run_emitMsg, run_copyfileOp, run_pure, h1, h2, hd1, hd2, hne1, hne2]
    · simp [invent_missing_headers, inventList, inventHeader, stateOf, run_bind,
        run_isfile, run_emitMsg, run_copyfileOp, run_pure, h1, h2, hd1, hd2, hne1, hne2]
    · simp [invent_missing_headers, inventList, inventHeader, stateOf, run_bind,
        run_isfile, run_emitMsg, run_copyfileOp, run_pure, h1, h2, hd1, hd2, hne1, hne2]
  · intro c1 c2 x y h1 h2 hd1 hd2
    simp [invent_missing_headers, inventList, inventHeader, run_bind, run_isfile,
      run_emitMsg, run_copyfileOp, run_pure, h1, h2, hd1, hd2]

/-- Witness for C7: on `stC7` the run copies `crt_externs.h`, leaves the
existing `bzlib.h` untouched, and succeeds. -/
theorem c7_witness :
    resultOf (invent_missing_headers envC bsC) stC7 = Except.ok () ∧
    traceOf (invent_missing_headers envC bsC) stC7 =
      [Effect.msg "Copying crt_externs.h",
       Effect.copyfile (pyJoin (pyJoin (iosSimulatorRoot envC) "usr/include") "crt_externs.h")
         (bsResolve bsC "crt_externs.h")] ∧
    (stateOf (invent_missing_headers envC bsC) stC7).fs.files (bsResolve bsC "crt_externs.h")
      = some "ce" ∧
    (stateOf (invent_missing_headers envC bsC) stC7).fs.files (bsResolve bsC "bzlib.h")
      = some "old" :=
  (c7_invent_missing_headers envC bsC stC7).2.2.1 "ce" "bz" "old"
    (by decide) (by decide) (by decide) (by decide) (by decide) (by decide)

/-! ## Helpers about strings -/

theorem containsSub_refl (s : String) : containsSub s s :=
  ⟨[], [], by simp⟩

theorem containsSub_left (a b sub : String) (h : containsSub a sub) :
    containsSub (a ++ b) sub := by
  obtain ⟨l, r, hl⟩ := h
  exact ⟨l, r ++ b.data, by simp [String.data_append, hl]⟩

theorem containsSub_right (a b sub : String) (h : containsSub b sub) :
    containsSub (a ++ b) sub := by
  obtain ⟨l, r, hl⟩ := h
  exact ⟨a.data ++ l, r, by simp [String.data_append, hl]⟩

theorem isPrefixOf_append_self : ∀ (l r : List Char), l.isPrefixOf (l ++ r) = true
  | [], _ => by simp
  | c :: cs, r => by simp [List.isPrefixOf, isPrefixOf_append_self cs r]

theorem isPrefixOf_eq_true_iff : ∀ (l1 l2 : List Char), l1.isPrefixOf l2 = true ↔ l1 <+: l2
  | [], l2 => by simp
  | a :: as, [] => by simp
  | a :: as, b :: bs => by
    rw [List.isPrefixOf_cons₂, List.cons_prefix_cons, Bool.and_eq_true, beq_iff_eq,
      isPrefixOf_eq_true_iff as bs]

set_option maxRecDepth 4000 in
set_option maxHeartbeats 1600000 in
/-- Claim C6: configuration generation writes the file only when it does
not already exist (an existing file is left untouched); when writing, a
missing in-tree template is fatal (exit 1), otherwise the template is
copied and the generated text appended; the generated text holds exactly
one toolset stanza per target triple (three `;`-terminated stanzas, given
that the substituted strings are `;`-free), with the arm flags and
iPhoneOS sysroot, the x86 flags and iPhoneSimulator sysroot, and the x86
flags and MacOSX sysroot respectively. -/
theorem c6_create_config (env : BuildEnvT) (bs : BoostSrc) (st : St) :
    (∀ c, st.fs.files bs.configPath = some c →
      create_config env bs st = (Except.ok (), st, [])) ∧
    (st.fs.files bs.configPath = none →
      st.fs.files (pyJoin bs.root "tools/build/example/user-config.jam") = none →
      create_config env bs st =
        (Except.error (Abort.exited 1), st,
         [Effect.msg ("File doesn\x27t exist: "
            ++ pyJoin bs.root "tools/build/example/user-config.jam")])) ∧
    (∀ t, st.fs.files bs.configPath = none →
      st.fs.files (pyJoin bs.root "tools/build/example/user-config.jam") = some t →
      resultOf (create_config env bs) st = Except.ok () ∧
      traceOf (create_config env bs) st =
        [Effect.copyfile (pyJoin bs.root "tools/build/example/user-config.jam") bs.configPath,
         Effect.appendFile bs.configPath (config_contents env)] ∧
      (stateOf (create_config env bs) st).fs.files bs.configPath
        = some (t ++ config_contents env)) ∧
    (countSemis env.xcodeRoot = 0 → countSemis env.iosSdkVersion = 0 →
      countSemis env.osxSdkVersion = 0 → countSemis (config_contents env) = 3) ∧
    containsSub (config_contents env) (archSysrootIos env) ∧
    containsSub (config_contents env) (archSysrootSim env) ∧
    containsSub (config_contents env) (archSysrootOsx env) := by
  refine ⟨?_, ?_, ?_, ?_, ?_, ?_, ?_⟩
  · intro c h
    simp [create_config, run_bind, run_isfile, run_pure, h]
  · intro h1 h2
    simp [create_config, run_bind, run_isfile, run_emitMsg, run_sysExit, run_pure, h1, h2]
  · intro t h1 h2
    refine ⟨?_, ?_, ?_⟩
    · simp [create_config, resultOf, run_bind, run_isfile, run_copyfileOp, run_appendFileOp,
        run_pure, h1, h2]
    · simp [create_config, traceOf, run_bind, run_isfile, run_copyfileOp, run_appendFileOp,
        run_pure, h1, h2]
    · simp [create_config, stateOf, run_bind, run_isfile, run_copyfileOp, run_appendFileOp,
        run_pure, h1, h2]
  · intro h1 h2 h3
    simp only [countSemis] at h1 h2 h3
    simp only [countSemis, config_contents, configStanzaIos, configStanzaSim, configStanzaOsx,
      archSysrootIos, archSysrootSim, archSysrootOsx, COMPILER, String.data_append,
      List.count_append, h1, h2, h3]
    decide
  · simp only [config_contents, configStanzaIos]
    repeat
      first
      | exact containsSub_right _ _ _ (containsSub_refl _)
      | apply containsSub_left
  · simp only [config_contents]
    apply containsSub_left
    apply containsSub_left
    apply containsSub_right
    simp only [configStanzaSim]
    repeat
      first
      | exact containsSub_right _ _ _ (containsSub_refl _)
      | apply containsSub_left
  · simp only [config_contents]
    apply containsSub_left
    apply containsSub_right
    simp only [configStanzaOsx]
    repeat
      first
      | exact containsSub_right _ _ _ (containsSub_refl _)
      | apply containsSub_left

/-- Witness for C6: under the concrete environment the generated text has
exactly three stanzas, and a state holding the template but no
configuration file gets the template-plus-stanzas written. -/
theorem c6_witness :
    countSemis (config_contents envC) = 3 ∧
    (stateOf (create_config envC bsC)
        { fs := { files := fun p =>
                    if p = pyJoin bsC.root "tools/build/example/user-config.jam" then some "tpl"
                    else none,
                  dirs := fun _ => false },
          cwd := "/w", dirStack := [] }).fs.files bsC.configPath
      = some ("tpl" ++ config_contents envC) :=
  ⟨(c6_create_config envC bsC stInit).2.2.2.1 (by decide) (by decide) (by decide),
   ((c6_create_config envC bsC _).2.2.1 "tpl" (by simp [bsC, mkBoostSrc]; decide)
      (by simp)).2.2⟩

/-- CPython 2.7 iterates the `tasks` dict literal in hash-slot order. -/
theorem buildPlatforms_eq : buildPlatforms = ["osx", "ios", "simulator"] := by decide

theorem platformKnown_ios : platformKnown "ios" = true := by decide

theorem platformKnown_simulator : platformKnown "simulator" = true := by decide

theorem platformKnown_osx : platformKnown "osx" = true := by decide

set_option maxHeartbeats 1600000 in
/-- When every external command succeeds, the build loop issues exactly
the four build-tool invocations, in dict-key order. -/
theorem buildLoop_cmds_all_ok (w : World) (env : BuildEnvT) (bs : BoostSrc) (st : St)
    (h : ∀ c fs, (w.exec c fs).status = 0) :
    resultOf (buildLoop w env bs) st = Except.ok () ∧
    runCmds (traceOf (buildLoop w env bs) st) =
      [b2Command env bs "osx" "stage", b2Command env bs "ios" "stage",
       b2Command env bs "ios" "install", b2Command env bs "simulator" "stage"] := by
  constructor
  · simp [buildLoop, buildPlatforms_eq, runPlatforms, runTargets, tasksFor, task_run,
      platformKnown_ios, platformKnown_simulator, platformKnown_osx, push_dir, pop_dir,
      envCd, shell, resultOf, run_bind, run_pushCwd, run_emitMsg, run_chdirOp,
      run_runCmdOp, run_pure, h]
  · simp [buildLoop, buildPlatforms_eq, runPlatforms, runTargets, tasksFor, task_run,
      platformKnown_ios, platformKnown_simulator, platformKnown_osx, push_dir, pop_dir,
      envCd, shell, traceOf, runCmds, run_bind, run_pushCwd, run_emitMsg, run_chdirOp,
      run_runCmdOp, run_pure, h]

/-- Claim C1 (counterexample): with the platform list and phase map of the
entry point and a world where every invocation succeeds, the build-tool
invocations are NOT issued in the order (ios, stage), (ios, install),
(simulator, stage), (osx, stage) claimed by the specification:
`tasks.keys()` follows CPython 2.7 dict hash order, which puts osx first. -/
theorem c1_counterexample :
    runCmds (traceOf (buildLoop wOk envC bsC) stInit) ≠
      [b2Command envC bsC "ios" "stage", b2Command envC bsC "ios" "install",
       b2Command envC bsC "simulator" "stage", b2Command envC bsC "osx" "stage"] := by
  have hall : ∀ c fs, (wOk.exec c fs).status = 0 := fun _ _ => rfl
  have hcmds := (buildLoop_cmds_all_ok wOk envC bsC stInit hall).2
  rw [hcmds]
  intro h
  have hhead : b2Command envC bsC "osx" "stage" = b2Command envC bsC "ios" "stage" := by
    injection h
  have htake : (b2Command envC bsC "osx" "stage").data.take 23
      = (b2Command envC bsC "ios" "stage").data.take 23 := by rw [hhead]
  have hne : (b2Command envC bsC "osx" "stage").data.take 23
      ≠ (b2Command envC bsC "ios" "stage").data.take 23 := by decide
  exact hne htake

set_option maxHeartbeats 4000000 in
/-- Claim C1 (amended): the entry point issues the build-tool invocations
in CPython 2.7 dict-key order — (osx, stage), (ios, stage),
(ios, install), (simulator, stage) — and terminates the whole run with
exit code 1 the moment any one invocation's exit status is nonzero,
without issuing any invocation for a subsequent (platform, phase) pair. -/
theorem c1_build_order_fail_fast (w : World) (env : BuildEnvT) (bs : BoostSrc) (st : St) :
    buildPlatforms = ["osx", "ios", "simulator"] ∧
    ((∀ c fs, (w.exec c fs).status = 0) →
      resultOf (buildLoop w env bs) st = Except.ok () ∧
      runCmds (traceOf (buildLoop w env bs) st) =
        [b2Command env bs "osx" "stage", b2Command env bs "ios" "stage",
         b2Command env bs "ios" "install", b2Command env bs "simulator" "stage"]) ∧
    ((∀ fs, (w.exec (b2Command env bs "osx" "stage") fs).status ≠ 0) →
      resultOf (buildLoop w env bs) st = Except.error (Abort.exited 1) ∧
      runCmds (traceOf (buildLoop w env bs) st) = [b2Command env bs "osx" "stage"]) ∧
    ((∀ fs, (w.exec (b2Command env bs "osx" "stage") fs).status = 0) →
     (∀ fs, (w.exec (b2Command env bs "ios" "stage") fs).status ≠ 0) →
      resultOf (buildLoop w env bs) st = Except.error (Abort.exited 1) ∧
      runCmds (traceOf (buildLoop w env bs) st) =
        [b2Command env bs "osx" "stage", b2Command env bs "ios" "stage"]) ∧
    ((∀ fs, (w.exec (b2Command env bs "osx" "stage") fs).status = 0) →
     (∀ fs, (w.exec (b2Command env bs "ios" "stage") fs).status = 0) →
     (∀ fs, (w.exec (b2Command env bs "ios" "install") fs).status ≠ 0) →
      resultOf (buildLoop w env bs) st = Except.error (Abort.exited 1) ∧
      runCmds (traceOf (buildLoop w env bs) st) =
        [b2Command env bs "osx" "stage", b2Command env bs "ios" "stage",
         b2Command env bs "ios" "install"]) ∧
    ((∀ fs, (w.exec (b2Command env bs "osx" "stage") fs).status = 0) →
     (∀ fs, (w.exec (b2Command env bs "ios" "stage") fs).status = 0) →
     (∀ fs, (w.exec (b2Command env bs "ios" "install") fs).status = 0) →
     (∀ fs, (w.exec (b2Command env bs "simulator" "stage") fs).status ≠ 0) →
      resultOf (buildLoop w env bs) st = Except.error (Abort.exited 1) ∧
      runCmds (traceOf (buildLoop w env bs) st) =
        [b2Command env bs "osx" "stage", b2Command env bs "ios" "stage",
         b2Command env bs "ios" "install", b2Command env bs "simulator" "stage"]) := by
  refine ⟨buildPlatforms_eq, buildLoop_cmds_all_ok w env bs st, ?_, ?_, ?_, ?_⟩
  · intro h0
    constructor
    · simp [buildLoop, buildPlatforms_eq, runPlatforms, runTargets, tasksFor, task_run,
        platformKnown_ios, platformKnown_simulator, platformKnown_osx, push_dir, pop_dir,
        envCd, shell, resultOf, run_bind, run_pushCwd, run_emitMsg, run_chdirOp,
        run_runCmdOp, run_sysExit, run_pure, h0]
    · simp [buildLoop, buildPlatforms_eq, runPlatforms, runTargets, tasksFor, task_run,
        platformKnown_ios, platformKnown_simulator, platformKnown_osx, push_dir, pop_dir,
        envCd, shell, traceOf, runCmds, run_bind, run_pushCwd, run_emitMsg, run_chdirOp,
        run_runCmdOp, run_sysExit, run_pure, h0]
  · intro h0 h1
    constructor
    · simp [buildLoop, buildPlatforms_eq, runPlatforms, runTargets, tasksFor, task_run,
        platformKnown_ios, platformKnown_simulator, platformKnown_osx, push_dir, pop_dir,
        envCd, shell, resultOf, run_bind, run_pushCwd, run_emitMsg, run_chdirOp,
        run_runCmdOp, run_sysExit, run_pure, h0, h1]
    · simp [buildLoop, buildPlatforms_eq, runPlatforms, runTargets, tasksFor, task_run,
        platformKnown_ios, platformKnown_simulator, platformKnown_osx, push_dir, pop_dir,
        envCd, shell, traceOf, runCmds, run_bind, run_pushCwd, run_emitMsg, run_chdirOp,
        run_runCmdOp, run_sysExit, run_pure, h0, h1]
  · intro h0 h1 h2
    constructor
    · simp [buildLoop, buildPlatforms_eq, runPlatforms, runTargets, tasksFor, task_run,
        platformKnown_ios, platformKnown_simulator, platformKnown_osx, push_dir, pop_dir,
        envCd, shell, resultOf, run_bind, run_pushCwd, run_emitMsg, run_chdirOp,
        run_runCmdOp, run_sysExit, run_pure, h0, h1, h2]
    · simp [buildLoop, buildPlatforms_eq, runPlatforms, runTargets, tasksFor, task_run,
        platformKnown_ios, platformKnown_simulator, platformKnown_osx, push_dir, pop_dir,
        envCd, shell, traceOf, runCmds, run_bind, run_pushCwd, run_emitMsg, run_chdirOp,
        run_runCmdOp, run_sysExit, run_pure, h0, h1, h2]
  · intro h0 h1 h2 h3
    constructor
    · simp [buildLoop, buildPlatforms_eq, runPlatforms, runTargets, tasksFor, task_run,
        platformKnown_ios, platformKnown_simulator, platformKnown_osx, push_dir, pop_dir,
        envCd, shell, resultOf, run_bind, run_pushCwd, run_emitMsg, run_chdirOp,
        run_runCmdOp, run_sysExit, run_pure, h0, h1, h2, h3]
    · simp [buildLoop, buildPlatforms_eq, runPlatforms, runTargets, tasksFor, task_run,
        platformKnown_ios, platformKnown_simulator, platformKnown_osx, push_dir, pop_dir,
        envCd, shell, traceOf, runCmds, run_bind, run_pushCwd, run_emitMsg, run_chdirOp,
        run_runCmdOp, run_sysExit, run_pure, h0, h1, h2, h3]

/-- Witness for the amended C1: in the all-succeeding world the loop
issues exactly the four invocations in dict-key order and finishes. -/
theorem c1_witness :
    resultOf (buildLoop wOk envC bsC) stInit = Except.ok () ∧
    runCmds (traceOf (buildLoop wOk envC bsC) stInit) =
      [b2Command envC bsC "osx" "stage", b2Command envC bsC "ios" "stage",
       b2Command envC bsC "ios" "install", b2Command envC bsC "simulator" "stage"] :=
  (c1_build_order_fail_fast wOk envC bsC stInit).2.1 (fun _ _ => rfl)

/-- Every run of `package()` dies at the first `make_dir` call: the name
is unbound at module level, so CPython raises `NameError` before any
(archive, architecture) pair is processed. -/
theorem package_aborts (w : World) (cwd0 : String) (st : St) :
    package w cwd0 st =
      (Except.error (Abort.pyError "NameError: global name make_dir is not defined"),
       { st with cwd := BOOST_ROOT cwd0 },
       [Effect.chdir (BOOST_ROOT cwd0)]) := by
  simp [package, packageMakeDirs, ARCHES, make_dir_unbound, run_bind, run_getCwd,
    run_chdirOp, run_pyRaise]

/-- Claim C2 (counterexample): in a world where an architecture slice is
missing (its `lipo -thin` invocation fails), packaging does NOT silently
skip the pair and continue — the run terminates, and in fact no thinning
invocation is ever issued. -/
theorem c2_counterexample :
    resultOf (package wC2 "/w") stInit ≠ Except.ok () ∧
    resultOf (package wC2 "/w") stInit
      = Except.error (Abort.pyError "NameError: global name make_dir is not defined") ∧
    runCmds (traceOf (package wC2 "/w") stInit) = [] := by
  have h := package_aborts wC2 "/w" stInit
  refine ⟨?_, ?_, ?_⟩
  · simp [resultOf, h]
  · simp [resultOf, h]
  · simp [traceOf, runCmds, h]

/-- Claim C2 (amended): for every world and starting state, `package()`
terminates (with an uncaught `NameError` on the unbound module-level name
`make_dir`) before processing any (archive, architecture) pair: it never
issues a thinning invocation, so no missing-slice tolerance exists; its
thinning step, moreover, is written with the fatal `shell` wrapper, not
the ignore-failure variant. -/
theorem c2_package_terminates (w : World) (cwd0 : String) (st : St) :
    resultOf (package w cwd0) st
      = Except.error (Abort.pyError "NameError: global name make_dir is not defined") ∧
    runCmds (traceOf (package w cwd0) st) = [] ∧
    traceOf (package w cwd0) st = [Effect.chdir (BOOST_ROOT cwd0)] := by
  have h := package_aborts w cwd0 st
  refine ⟨?_, ?_, ?_⟩
  · simp [resultOf, h]
  · simp [traceOf, runCmds, h]
  · simp [traceOf, h]

/-- Claim C8 (code bug): the build-once logic of `bcp()` behaves as
described — no build when the binary exists, fatal exit when it is still
absent after the build attempt — but the function can never install
headers: directly after that logic it references the unbound module-level
name `make_dir` and dies with `NameError`, before issuing the extraction
command and before any remove-then-copy of the destination tree. -/
theorem c8_bcp_name_error (w : World) (cwd0 : String) (st : St) :
    ((st.fs.files (pyJoin (BOOST_ROOT cwd0) "dist/bin/bcp")).isSome = true →
      bcp w cwd0 st =
        (Except.error (Abort.pyError "NameError: global name make_dir is not defined"),
         { st with cwd := BOOST_ROOT cwd0 },
         [Effect.chdir (BOOST_ROOT cwd0)])) ∧
    (st.fs.files (pyJoin (BOOST_ROOT cwd0) "dist/bin/bcp") = none →
     (w.exec "./b2 tools/bcp" st.fs).status = 0 →
     (w.exec "./b2 tools/bcp" st.fs).fsAfter.files (pyJoin (BOOST_ROOT cwd0) "dist/bin/bcp")
        = none →
      resultOf (bcp w cwd0) st = Except.error (Abort.exited 1) ∧
      traceOf (bcp w cwd0) st =
        [Effect.chdir (BOOST_ROOT cwd0), Effect.msg "Building bcp",
         Effect.run "./b2 tools/bcp", Effect.msg "Unable to build bcp"]) ∧
    (st.fs.files (pyJoin (BOOST_ROOT cwd0) "dist/bin/bcp") = none →
     (w.exec "./b2 tools/bcp" st.fs).status = 0 →
     ((w.exec "./b2 tools/bcp" st.fs).fsAfter.files
        (pyJoin (BOOST_ROOT cwd0) "dist/bin/bcp")).isSome = true →
      resultOf (bcp w cwd0) st
        = Except.error (Abort.pyError "NameError: global name make_dir is not defined") ∧
      traceOf (bcp w cwd0) st =
        [Effect.chdir (BOOST_ROOT cwd0), Effect.msg "Building bcp",
         Effect.run "./b2 tools/bcp"]) := by
  refine ⟨?_, ?_, ?_⟩
  · intro h
    simp [bcp, make_dir_unbound, shell, run_bind, run_getCwd, run_chdirOp, run_isfile,
      run_emitMsg, run_runCmdOp, run_sysExit, run_pyRaise, run_pure, h]
  · intro h1 h2 h3
    constructor
    · simp [bcp, make_dir_unbound, shell, resultOf, run_bind, run_getCwd, run_chdirOp,
        run_isfile, run_emitMsg, run_runCmdOp, run_sysExit, run_pyRaise, run_pure,
        h1, h2, h3]
    · simp [bcp, make_dir_unbound, shell, traceOf, run_bind, run_getCwd, run_chdirOp,
        run_isfile, run_emitMsg, run_runCmdOp, run_sysExit, run_pyRaise, run_pure,
        h1, h2, h3]
  · intro h1 h2 h3
    constructor
    · simp [bcp, make_dir_unbound, shell, resultOf, run_bind, run_getCwd, run_chdirOp,
        run_isfile, run_emitMsg, run_runCmdOp, run_sysExit, run_pyRaise, run_pure,
        h1, h2, h3]
    · simp [bcp, make_dir_unbound, shell, traceOf, run_bind, run_getCwd, run_chdirOp,
        run_isfile, run_emitMsg, run_runCmdOp, run_sysExit, run_pyRaise, run_pure,
        h1, h2, h3]

/-- Witness for C8: with the bcp binary already present, the run issues no
build command and dies at the unbound `make_dir` before any installation. -/
theorem c8_witness :
    bcp wOk "/w" stC8 =
      (Except.error (Abort.pyError "NameError: global name make_dir is not defined"),
       { stC8 with cwd := BOOST_ROOT "/w" },
       [Effect.chdir (BOOST_ROOT "/w")]) :=
  (c8_bcp_name_error wOk "/w" stC8).1 (by simp [stC8])

/-! ## EmitsB combinators -/

theorem emitsB_pure {α : Type} (P : Effect → Bool) (a : α) :
    EmitsB P (pure a : M α) := by
  intro st e he
  simp [run_pure] at he

theorem emitsB_bind {α β : Type} {P : Effect → Bool} {x : M α} {f : α → M β}
    (hx : EmitsB P x) (hf : ∀ a, EmitsB P (f a)) : EmitsB P (x >>= f) := by
  intro st e he
  rw [run_bind] at he
  rcases hxst : x st with ⟨r, st1, tr1⟩
  rw [hxst] at he
  match r with
  | Except.error er =>
    have : e ∈ tr1 := by simpa using he
    exact hx st e (by rw [hxst]; exact this)
  | Except.ok a =>
    rcases hfst : f a st1 with ⟨r2, st2, tr2⟩
    dsimp only at he
    rw [hfst] at he
    have : e ∈ tr1 ++ tr2 := by simpa using he
    rcases List.mem_append.mp this with h | h
    · exact hx st e (by rw [hxst]; exact h)
    · exact hf a st1 e (by rw [hfst]; exact h)

theorem emitsB_ite {α : Type} {P : Effect → Bool} (c : Prop) [Decidable c] {x y : M α}
    (hx : EmitsB P x) (hy : EmitsB P y) : EmitsB P (if c then x else y) := by
  by_cases h : c
  · simpa [h] using hx
  · simpa [h] using hy

theorem emitsB_sysExit {α : Type} (P : Effect → Bool) (c : Nat) :
    EmitsB P (sysExit c : M α) := by
  intro st e he
  simp [run_sysExit] at he

theorem emitsB_pyRaise {α : Type} (P : Effect → Bool) (m : String) :
    EmitsB P (pyRaise m : M α) := by
  intro st e he
  simp [run_pyRaise] at he

theorem emitsB_emitMsg {P : Effect → Bool} (t : String) (h : P (Effect.msg t) = true) :
    EmitsB P (emitMsg t) := by
  intro st e he
  simp [run_emitMsg] at he
  rwa [he]

theorem emitsB_isfile (P : Effect → Bool) (p : String) : EmitsB P (isfile p) := by
  intro st e he
  simp [run_isfile] at he

theorem emitsB_isdir (P : Effect → Bool) (p : String) : EmitsB P (isdir p) := by
  intro st e he
  simp [run_isdir] at he

theorem emitsB_getCwd (P : Effect → Bool) : EmitsB P getCwd := by
  intro st e he
  simp [run_getCwd] at he

theorem emitsB_pushCwd (P : Effect → Bool) : EmitsB P pushCwd := by
  intro st e he
  simp [run_pushCwd] at he

theorem emitsB_listdirOp (P : Effect → Bool) (w : World) (p : String) :
    EmitsB P (listdirOp w p) := by
  intro st e he
  simp [run_listdirOp] at he

theorem emitsB_chdirOp {P : Effect → Bool} (p : String) (h : P (Effect.chdir p) = true) :
    EmitsB P (chdirOp p) := by
  intro st e he
  simp [run_chdirOp] at he
  rwa [he]

theorem emitsB_copyfileOp {P : Effect → Bool} (src dst : String)
    (h : P (Effect.copyfile src dst) = true) : EmitsB P (copyfileOp src dst) := by
  intro st e he
  simp [run_copyfileOp] at he
  rwa [he]

theorem emitsB_appendFileOp {P : Effect → Bool} (p t : String)
    (h : P (Effect.appendFile p t) = true) : EmitsB P (appendFileOp p t) := by
  intro st e he
  simp [run_appendFileOp] at he
  rwa [he]

theorem emitsB_makedirsOp {P : Effect → Bool} (p : String)
    (h : P (Effect.makedirs p) = true) : EmitsB P (makedirsOp p) := by
  intro st e he
  simp [run_makedirsOp] at he
  rwa [he]

theorem emitsB_runCmdOp {P : Effect → Bool} (w : World) (cmd : String)
    (h : P (Effect.run cmd) = true) : EmitsB P (runCmdOp w cmd) := by
  intro st e he
  simp [run_runCmdOp] at he
  rwa [he]

/-! ## Command-shape facts -/

theorem pStarts_append (p t : String) : pStarts p (p ++ t) = true := by
  rw [pStarts, String.data_append]
  exact isPrefixOf_append_self _ _

theorem go_split (s : String) :
    ∀ (l : List String) (acc : String),
      (∃ r : String, String.intercalate.go acc s l = acc ++ r)
      ∨ String.intercalate.go acc s l = acc
  | [], _ => Or.inr rfl
  | a :: as, acc => by
    rcases go_split s as ((acc ++ s) ++ a) with ⟨r, hr⟩ | hr
    · refine Or.inl ⟨(s ++ a) ++ r, ?_⟩
      show String.intercalate.go ((acc ++ s) ++ a) s as = _
      rw [hr]
      simp [String.append_assoc]
    · refine Or.inl ⟨s ++ a, ?_⟩
      show String.intercalate.go ((acc ++ s) ++ a) s as = _
      rw [hr]
      simp [String.append_assoc]

theorem intercalate_cons2 (s a b : String) (l : List String) :
    ∃ x : String, String.intercalate s (a :: b :: l) = (a ++ s) ++ x := by
  rcases go_split s l ((a ++ s) ++ b) with ⟨r, hr⟩ | hr
  · refine ⟨b ++ r, ?_⟩
    show String.intercalate.go ((a ++ s) ++ b) s l = _
    rw [hr]
    simp [String.append_assoc]
  · refine ⟨b, ?_⟩
    show String.intercalate.go ((a ++ s) ++ b) s l = _
    rw [hr]

theorem b2_prefix_of_cons2 (b : String) (l : List String) :
    pStarts "./b2 -j16 " ("./b2 " ++ String.intercalate " " ("-j16" :: b :: l)) = true := by
  obtain ⟨x, hx⟩ := intercalate_cons2 " " "-j16" b l
  rw [hx]
  have hlit : ("./b2 -j16 " : String) = "./b2 " ++ ("-j16" ++ " ") := by decide
  rw [← String.append_assoc, ← hlit]
  exact pStarts_append _ _

theorem b2Command_starts (env : BuildEnvT) (bs : BoostSrc) (p t : String) :
    pStarts "./b2 -j16 " (b2Command env bs p t) = true := by
  rw [b2Command, build_args, common_build_args]
  simp only [List.cons_append, List.append_assoc]
  exact b2_prefix_of_cons2 _ _

theorem mainCmdOk_b2 (env : BuildEnvT) (bs : BoostSrc) (p t : String) :
    mainCmdOk (b2Command env bs p t) = true := by
  simp [mainCmdOk, b2Command_starts]

theorem mainCmdOk_curl (bs : BoostSrc) :
    mainCmdOk ("curl -L -o " ++ bs.tarballPath ++ " " ++ bs.tarballUrl) = true := by
  have h : pStarts "curl -L -o "
      ("curl -L -o " ++ bs.tarballPath ++ " " ++ bs.tarballUrl) = true := by
    simp only [String.append_assoc]
    exact pStarts_append _ _
  simp [mainCmdOk, h]

theorem mainCmdOk_tar (bs : BoostSrc) :
    mainCmdOk ("tar xfj " ++ bs.tarballPath) = true := by
  simp [mainCmdOk, pStarts_append]

theorem mainCmdOk_bootstrap :
    mainCmdOk ("./bootstrap.sh --with-libraries=" ++ String.intercalate "," BOOST_LIBS)
      = true := by
  simp [mainCmdOk, pStarts_append]

/-! ## The entry point emits only whitelisted effects -/

theorem mainOk_shell (w : World) (cmd : String) (i : Bool) (h : mainCmdOk cmd = true) :
    EmitsB mainEffectOk (shell w cmd i) := by
  unfold shell
  refine emitsB_bind (emitsB_runCmdOp w cmd ?_) ?_
  · simpa [mainEffectOk] using h
  · intro r
    refine emitsB_ite _ ?_ (emitsB_pure _ _)
    exact emitsB_bind (emitsB_emitMsg _ rfl) (fun _ => emitsB_sysExit _ _)

theorem mainOk_shell_output (w : World) (cmd : String) (i : Bool)
    (h : mainCmdOk cmd = true) : EmitsB mainEffectOk (shell_output w cmd i) := by
  unfold shell_output
  refine emitsB_bind (emitsB_runCmdOp w cmd ?_) ?_
  · simpa [mainEffectOk] using h
  · intro r
    refine emitsB_ite _ ?_ (emitsB_pure _ _)
    exact emitsB_bind (emitsB_emitMsg _ rfl) (fun _ => emitsB_sysExit _ _)

theorem mainOk_moduleProbes (w : World) : EmitsB mainEffectOk (moduleProbes w) := by
  unfold moduleProbes
  refine emitsB_bind (mainOk_shell_output w _ _ (by decide)) fun _ => ?_
  refine emitsB_bind (mainOk_shell_output w _ _ (by decide)) fun _ => ?_
  exact emitsB_bind (mainOk_shell_output w _ _ (by decide)) fun _ => emitsB_pure _ _

theorem mainOk_mkBuildEnv (w : World) (root : String) :
    EmitsB mainEffectOk (mkBuildEnv w root) := by
  unfold mkBuildEnv
  refine emitsB_bind (mainOk_shell_output w _ _ (by decide)) fun _ => ?_
  refine emitsB_bind (mainOk_shell_output w _ _ (by decide)) fun _ => ?_
  exact emitsB_bind (mainOk_shell_output w _ _ (by decide)) fun _ => emitsB_pure _ _

theorem mainOk_make_dir (env : BuildEnvT) (rel : String) :
    EmitsB mainEffectOk (make_dir env rel) := by
  unfold make_dir
  refine emitsB_bind (emitsB_isdir _ _) fun d => ?_
  dsimp only
  refine emitsB_ite _ ?_ ?_
  · refine emitsB_bind (emitsB_emitMsg _ rfl) fun _ => ?_
    exact emitsB_bind (emitsB_makedirsOp _ rfl) fun _ => emitsB_pure _ _
  · exact emitsB_bind (emitsB_pure _ _) fun _ => emitsB_pure _ _

theorem mainOk_envPrepare (env : BuildEnvT) : EmitsB mainEffectOk (envPrepare env) := by
  unfold envPrepare
  exact emitsB_bind (mainOk_make_dir env "") fun _ => emitsB_pure _ _

theorem mainOk_envCd (p : String) : EmitsB mainEffectOk (envCd p) := by
  unfold envCd
  exact emitsB_bind (emitsB_emitMsg _ rfl) fun _ => emitsB_chdirOp _ rfl

theorem mainOk_push_dir (env : BuildEnvT) (rel : String) :
    EmitsB mainEffectOk (push_dir env rel) := by
  unfold push_dir
  exact emitsB_bind (emitsB_pushCwd _) fun _ => mainOk_envCd _

theorem mainOk_pop_dir : EmitsB mainEffectOk pop_dir := by
  intro st e he
  unfold pop_dir at he
  match hst : st.dirStack with
  | [] =>
    rw [hst] at he
    simp at he
  | d :: rest =>
    rw [hst] at he
    exact mainOk_envCd d _ e he

theorem mainOk_download (w : World) (bs : BoostSrc) :
    EmitsB mainEffectOk (download w bs) := by
  unfold download
  refine emitsB_bind (emitsB_isfile _ _) fun f => ?_
  refine emitsB_ite _ (emitsB_emitMsg _ rfl) ?_
  exact emitsB_bind (emitsB_emitMsg _ rfl)
    fun _ => mainOk_shell w _ _ (mainCmdOk_curl bs)

theorem mainOk_unpack (w : World) (env : BuildEnvT) (bs : BoostSrc) :
    EmitsB mainEffectOk (unpack w env bs) := by
  unfold unpack
  refine emitsB_bind (emitsB_isfile _ _) fun f => ?_
  dsimp only
  refine emitsB_ite _ ?_ ?_
  · refine emitsB_bind (emitsB_emitMsg _ rfl) fun _ => ?_
    refine emitsB_bind (emitsB_isdir _ _) fun d => ?_
    refine emitsB_ite _ (emitsB_emitMsg _ rfl) ?_
    refine emitsB_bind (mainOk_make_dir env _) fun _ => ?_
    refine emitsB_bind (mainOk_push_dir env _) fun _ => ?_
    refine emitsB_bind (emitsB_emitMsg _ rfl) fun _ => ?_
    exact emitsB_bind (mainOk_shell w _ _ (mainCmdOk_tar bs)) fun _ => mainOk_pop_dir
  · refine emitsB_bind (emitsB_pure _ _) fun _ => ?_
    refine emitsB_bind (emitsB_isdir _ _) fun d => ?_
    refine emitsB_ite _ (emitsB_emitMsg _ rfl) ?_
    refine emitsB_bind (mainOk_make_dir env _) fun _ => ?_
    refine emitsB_bind (mainOk_push_dir env _) fun _ => ?_
    refine emitsB_bind (emitsB_emitMsg _ rfl) fun _ => ?_
    exact emitsB_bind (mainOk_shell w _ _ (mainCmdOk_tar bs)) fun _ => mainOk_pop_dir

theorem mainOk_inventHeader (env : BuildEnvT) (bs : BoostSrc) (f : String) :
    EmitsB mainEffectOk (inventHeader env bs f) := by
  unfold inventHeader
  refine emitsB_bind (emitsB_isfile _ _) fun h => ?_
  refine emitsB_ite _ ?_ ?_
  · exact emitsB_bind (emitsB_emitMsg _ rfl) fun _ => emitsB_sysExit _ _
  · refine emitsB_bind (emitsB_isfile _ _) fun g => ?_
    refine emitsB_ite _ ?_ (emitsB_pure _ _)
    exact emitsB_bind (emitsB_emitMsg _ rfl) fun _ => emitsB_copyfileOp _ _ rfl

theorem mainOk_inventList (env : BuildEnvT) (bs : BoostSrc) :
    ∀ l : List String, EmitsB mainEffectOk (inventList env bs l)
  | [] => emitsB_pure _ _
  | f :: rest => by
    unfold inventList
    exact emitsB_bind (mainOk_inventHeader env bs f)
      fun _ => mainOk_inventList env bs rest

theorem mainOk_invent_missing_headers (env : BuildEnvT) (bs : BoostSrc) :
    EmitsB mainEffectOk (invent_missing_headers env bs) :=
  mainOk_inventList env bs _

theorem mainOk_bootstrapStep (w : World) (env : BuildEnvT) (bs : BoostSrc) :
    EmitsB mainEffectOk (bootstrapStep w env bs) := by
  unfold bootstrapStep
  refine emitsB_bind (mainOk_push_dir env _) fun _ => ?_
  refine emitsB_bind (emitsB_emitMsg _ rfl) fun _ => ?_
  exact emitsB_bind (mainOk_shell w _ _ mainCmdOk_bootstrap) fun _ => mainOk_pop_dir

theorem mainOk_create_config (env : BuildEnvT) (bs : BoostSrc) :
    EmitsB mainEffectOk (create_config env bs) := by
  unfold create_config
  refine emitsB_bind (emitsB_isfile _ _) fun c => ?_
  refine emitsB_ite _ ?_ (emitsB_pure _ _)
  refine emitsB_bind (emitsB_isfile _ _) fun t => ?_
  refine emitsB_ite _ ?_ ?_
  · exact emitsB_bind (emitsB_emitMsg _ rfl) fun _ => emitsB_sysExit _ _
  · exact emitsB_bind (emitsB_copyfileOp _ _ rfl) fun _ => emitsB_appendFileOp _ _ rfl

theorem mainOk_setup (w : World) (env : BuildEnvT) (bs : BoostSrc) :
    EmitsB mainEffectOk (setup w env bs) := by
  unfold setup
  refine emitsB_bind (mainOk_download w bs) fun _ => ?_
  refine emitsB_bind (mainOk_unpack w env bs) fun _ => ?_
  refine emitsB_bind (mainOk_invent_missing_headers env bs) fun _ => ?_
  exact emitsB_bind (mainOk_bootstrapStep w env bs)
    fun _ => mainOk_create_config env bs

theorem mainOk_task_run (w : World) (env : BuildEnvT) (bs : BoostSrc) (p t : String) :
    EmitsB mainEffectOk (task_run w env bs p t) := by
  unfold task_run
  refine emitsB_bind (mainOk_push_dir env _) fun _ => ?_
  refine emitsB_bind (emitsB_emitMsg _ rfl) fun _ => ?_
  refine emitsB_ite _ ?_ ?_
  · exact emitsB_bind (mainOk_shell w _ _ (mainCmdOk_b2 env bs p t)) fun _ => mainOk_pop_dir
  · exact emitsB_bind (emitsB_emitMsg _ rfl) fun _ => emitsB_sysExit _ _

theorem mainOk_runTargets (w : World) (env : BuildEnvT) (bs : BoostSrc) (p : String) :
    ∀ l : List String, EmitsB mainEffectOk (runTargets w env bs p l)
  | [] => emitsB_pure _ _
  | t :: rest => by
    unfold runTargets
    exact emitsB_bind (mainOk_task_run w env bs p t)
      fun _ => mainOk_runTargets w env bs p rest

theorem mainOk_runPlatforms (w : World) (env : BuildEnvT) (bs : BoostSrc) :
    ∀ l : List String, EmitsB mainEffectOk (runPlatforms w env bs l)
  | [] => emitsB_pure _ _
  | p :: rest => by
    unfold runPlatforms
    exact emitsB_bind (mainOk_runTargets w env bs p _)
      fun _ => mainOk_runPlatforms w env bs rest

theorem mainOk_buildLoop (w : World) (env : BuildEnvT) (bs : BoostSrc) :
    EmitsB mainEffectOk (buildLoop w env bs) :=
  mainOk_runPlatforms w env bs _

theorem mainOk_main_run (w : World) (cwd0 : String) :
    EmitsB mainEffectOk (main_run w cwd0) := by
  unfold main_run
  refine emitsB_bind (mainOk_moduleProbes w) fun _ => ?_
  refine emitsB_bind (mainOk_mkBuildEnv w _) fun env => ?_
  refine emitsB_bind (mainOk_envPrepare env) fun _ => ?_
  exact emitsB_bind (mainOk_setup w env _) fun _ => mainOk_buildLoop w env _

theorem pStarts_head (p s : String) (h : pStarts p s = true) :
    ∀ cp, p.data.head? = some cp → s.data.head? = some cp := by
  rw [pStarts, isPrefixOf_eq_true_iff] at h
  obtain ⟨t, ht⟩ := h
  intro cp hcp
  rw [← ht]
  match hp : p.data with
  | [] => rw [hp] at hcp; simp at hcp
  | c :: rest =>
    rw [hp] at hcp
    simp at hcp
    simp [hcp]

theorem pStarts_false_of_head (p s : String) (cp cs : Char)
    (hp : p.data.head? = some cp) (hs : s.data.head? = some cs) (hne : cp ≠ cs) :
    pStarts p s = false := by
  cases h : pStarts p s
  · rfl
  · have := pStarts_head p s h cp hp
    rw [hs] at this
    cases this
    exact absurd rfl hne

/-- Whitelisted entry-point effects are never packaging, header-extraction
or cleanup effects. -/
theorem mainEffectOk_excludes (e : Effect) (h : mainEffectOk e = true) :
    pkgEffect e = false := by
  match e with
  | Effect.msg t => rfl
  | Effect.copyfile a b => rfl
  | Effect.makedirs a => rfl
  | Effect.chdir a => rfl
  | Effect.appendFile a b => rfl
  | Effect.rmtree a => exact absurd h (by simp [mainEffectOk])
  | Effect.remove a => exact absurd h (by simp [mainEffectOk])
  | Effect.copytree a b => exact absurd h (by simp [mainEffectOk])
  | Effect.run c =>
    have hc : mainCmdOk c = true := h
    rw [mainCmdOk] at hc
    simp only [Bool.or_eq_true, beq_iff_eq] at hc
    show pkgCmd c = false
    rcases hc with ((((((hc | hc) | hc) | hc) | hc) | hc) | hc)
    · subst hc; decide
    · subst hc; decide
    · subst hc; decide
    · have hh : c.data.head? = some 'c' := pStarts_head _ _ hc _ (by decide)
      rw [pkgCmd]
      simp only [Bool.or_eq_false_iff]
      refine ⟨⟨⟨?_, ?_⟩, ?_⟩, ?_⟩
      · exact pStarts_false_of_head _ _ 'x' 'c' (by decide) hh (by decide)
      · exact pStarts_false_of_head _ _ 'l' 'c' (by decide) hh (by decide)
      · exact pStarts_false_of_head _ _ 'a' 'c' (by decide) hh (by decide)
      · cases hq : c == "./b2 tools/bcp"
        · rfl
        · have : c = "./b2 tools/bcp" := eq_of_beq hq
          subst this
          exact absurd hc (by decide)
    · have hh : c.data.head? = some 't' := pStarts_head _ _ hc _ (by decide)
      rw [pkgCmd]
      simp only [Bool.or_eq_false_iff]
      refine ⟨⟨⟨?_, ?_⟩, ?_⟩, ?_⟩
      · exact pStarts_false_of_head _ _ 'x' 't' (by decide) hh (by decide)
      · exact pStarts_false_of_head _ _ 'l' 't' (by decide) hh (by decide)
      · exact pStarts_false_of_head _ _ 'a' 't' (by decide) hh (by decide)
      · cases hq : c == "./b2 tools/bcp"
        · rfl
        · have : c = "./b2 tools/bcp" := eq_of_beq hq
          subst this
          exact absurd hc (by decide)
    · have hh : c.data.head? = some '.' := pStarts_head _ _ hc _ (by decide)
      rw [pkgCmd]
      simp only [Bool.or_eq_false_iff]
      refine ⟨⟨⟨?_, ?_⟩, ?_⟩, ?_⟩
      · exact pStarts_false_of_head _ _ 'x' '.' (by decide) hh (by decide)
      · exact pStarts_false_of_head _ _ 'l' '.' (by decide) hh (by decide)
      · exact pStarts_false_of_head _ _ 'a' '.' (by decide) hh (by decide)
      · cases hq : c == "./b2 tools/bcp"
        · rfl
        · have : c = "./b2 tools/bcp" := eq_of_beq hq
          subst this
          exact absurd hc (by decide)
    · have hh : c.data.head? = some '.' := pStarts_head _ _ hc _ (by decide)
      rw [pkgCmd]
      simp only [Bool.or_eq_false_iff]
      refine ⟨⟨⟨?_, ?_⟩, ?_⟩, ?_⟩
      · exact pStarts_false_of_head _ _ 'x' '.' (by decide) hh (by decide)
      · exact pStarts_false_of_head _ _ 'l' '.' (by decide) hh (by decide)
      · exact pStarts_false_of_head _ _ 'a' '.' (by decide) hh (by decide)
      · cases hq : c == "./b2 tools/bcp"
        · rfl
        · have : c = "./b2 tools/bcp" := eq_of_beq hq
          subst this
          exact absurd hc (by decide)

/-- Every run of a failing first probe dies immediately with two effects. -/
theorem main_run_wFail (cwd0 : String) (st : St) :
    main_run wFail cwd0 st =
      (Except.error (Abort.exited 1), st,
       [Effect.run "xcode-select -print-path",
        Effect.msg ("xcode-select -print-path" ++ " failed with status "
          ++ toString (1 : Nat))]) := by
  simp [main_run, moduleProbes, shell_output, run_bind, run_runCmdOp, run_emitMsg,
    run_sysExit, run_pure, wFail]

/-- Claim C9: a run of the entry point never invokes the packaging step,
the header-extraction step, or the cleanup step: every effect of every
run is a whitelisted pipeline effect (probes, fetch, extract-tarball,
bootstrap, `./b2 -j16 ...` builds, prints, file copies/appends, mkdir,
chdir), and in particular no `lipo`/`ar`/`xcrun --sdk` command, no
`./b2 tools/bcp` build, no tree or file removal, and no tree copy ever
occurs — intermediate build artifacts are left in place. -/
theorem c9_main_never_packages (w : World) (cwd0 : String) (st : St) (e : Effect)
    (he : e ∈ traceOf (main_run w cwd0) st) :
    mainEffectOk e = true ∧ pkgEffect e = false := by
  have h := mainOk_main_run w cwd0 st e he
  exact ⟨h, mainEffectOk_excludes e h⟩

/-- Witness for C9: a concrete run (first probe failing) whose first trace
effect is the probe command, which the theorem classifies as a
non-packaging effect. -/
theorem c9_witness :
    mainEffectOk (Effect.run "xcode-select -print-path") = true ∧
    pkgEffect (Effect.run "xcode-select -print-path") = false :=
  c9_main_never_packages wFail "/w" stInit (Effect.run "xcode-select -print-path")
    (by rw [traceOf, main_run_wFail]; simp)
